import Mathlib

/-!
# EVENTSYNS: registration core

A shallow embedding of the RSVP, cancel, event deletion, creation and update
route handlers of `src/routes/events.js`, of the two Mongoose documents they
touch (`src/models/Event.js`, `src/models/User.js`, with the virtuals of the
event model), of the payment gateway module `src/utils/mpesa.js` (the
requests it builds and the way it reports the provider's answer) and of the
route table that `src/app.js` assembles.

Conventions of the embedding.

* Mongo object ids are natural numbers; `a.equals(b)` is `a == b`.
* A collection is a function from ids to optional documents; `findById` is
  application, `doc.save()` overwrites the entry under the document's id.
  The `_id` of a loaded document is the id it was loaded under.
* `await`ed operations that can reject (a lookup, a save) are driven by an
  `Env` value that says which of them reject during one request; the
  `try`/`catch` blocks of the handlers are followed branch by branch.
* JavaScript numbers are rationals: `capacity` (schema type `Number`, no
  integer validator) is a rational, `price` is a rational or `null`.
-/

namespace EventSyns

/-! ## Data model (`src/models/Event.js`, `src/models/User.js`) -/

/-- The `paymentStatus` enum of both schemas: `['pending', 'paid', 'failed']`. -/
inductive PaymentStatus where
  | pending
  | paid
  | failed
  deriving DecidableEq, Repr

/-- One element of `eventSchema.attendees`. A `paymentReference` that was
never set (or set to `undefined`) is `none`. -/
structure Attendance where
  user : Nat
  paymentStatus : PaymentStatus
  paymentReference : Option String
  deriving DecidableEq, Repr

/-- One element of `userSchema.attendingEvents`. -/
structure AttendanceRef where
  event : Nat
  paymentStatus : PaymentStatus
  paymentReference : Option String
  deriving DecidableEq, Repr

/-- The fields of an `Event` document that the registration routes read or
write. -/
structure Event where
  capacity : ℚ
  price : Option ℚ
  isPaid : Bool
  creator : Nat
  attendees : List Attendance
  deriving DecidableEq, Repr

/-- The fields of a `User` document that the registration routes read or
write. -/
structure User where
  eventsCreated : List Nat
  attendingEvents : List AttendanceRef
  deriving DecidableEq, Repr

/-- The two collections. -/
structure Store where
  events : Nat → Option Event
  users : Nat → Option User

/-- Effect of `event.save()` for the document loaded under `id`. -/
def Store.saveEvent (s : Store) (id : Nat) (e : Event) : Store :=
  { s with events := fun j => if j = id then some e else s.events j }

/-- Effect of `user.save()` for the document loaded under `id`. -/
def Store.saveUser (s : Store) (id : Nat) (u : User) : Store :=
  { s with users := fun j => if j = id then some u else s.users j }

/-! ## Gateway module (`src/utils/mpesa.js`) -/

/-- A JavaScript value as it occurs in the objects the gateway functions
return: a boolean, a string, or a flat record of strings. -/
inductive JSVal where
  | bool (b : Bool)
  | str (s : String)
  | record (fields : List (String × String))
  deriving DecidableEq, Repr

/-- A JavaScript object literal: its own properties, in source order. -/
abbrev JSObject := List (String × JSVal)

/-- Property read `o.k`; `none` is `undefined`. -/
def JSObject.prop (o : JSObject) (k : String) : Option JSVal :=
  List.lookup k o

/-- The body `response.data` of a provider answer to an STK push or a
status query. -/
structure ProviderData where
  ResponseCode : String
  ResponseDescription : String
  CheckoutRequestID : String
  MerchantRequestID : String
  CustomerMessage : String
  ResultCode : String
  ResultDesc : String
  deriving DecidableEq, Repr

/-- What the outside world does during one call of a gateway function:
`getOAuthToken` throws, or the token is obtained and the `axios` request
rejects with an error whose `error.response?.data || error.message` is the
given text, or the provider answers. -/
inductive Gateway where
  | authFailure
  | networkFailure (error : String)
  | answer (data : ProviderData)
  deriving DecidableEq, Repr

/-- The object built in the `catch` block of `initiateSTKPush`. -/
def stkFailure (error : String) : JSObject :=
  [("success", .bool false), ("error", .str error),
   ("message", .str "Failed to initiate payment. Please try again.")]

/-- Control flow of `initiateSTKPush` (lines 60-127) after the request has
been sent: the value the returned promise resolves to. Every exception is
caught inside the function, so the promise never rejects. -/
def initiateSTKPush (gw : Gateway) (_phoneNumber : String) (_amount : ℚ) : JSObject :=
  match gw with
  | .authFailure => stkFailure "Failed to get access token"
  | .networkFailure error => stkFailure error
  | .answer d =>
    if d.ResponseCode = "0" then
      [("success", .bool true),
       ("data", .record
          [("CheckoutRequestID", d.CheckoutRequestID),
           ("MerchantRequestID", d.MerchantRequestID),
           ("ResponseCode", d.ResponseCode),
           ("ResponseDescription", d.ResponseDescription),
           ("CustomerMessage", d.CustomerMessage)])]
    else
      -- throw new Error(response.data.ResponseDescription || 'STK push failed')
      stkFailure (if d.ResponseDescription = "" then "STK push failed"
                  else d.ResponseDescription)

/-- Control flow of `verifyTransaction` (lines 130-179). -/
def verifyTransaction (gw : Gateway) (checkoutRequestID : String) : JSObject :=
  match gw with
  | .authFailure =>
    [("success", .bool false), ("error", .str "Failed to get access token"),
     ("message", .str "Failed to verify transaction status")]
  | .networkFailure error =>
    [("success", .bool false), ("error", .str error),
     ("message", .str "Failed to verify transaction status")]
  | .answer d =>
    [("success", .bool true),
     ("data", .record
        [("ResultCode", d.ResultCode),
         ("ResultDesc", d.ResultDesc),
         ("CheckoutRequestID", checkoutRequestID),
         ("ResponseCode", d.ResponseCode),
         ("ResponseDescription", d.ResponseDescription)])]

/-- The functions defined for export in `src/utils/mpesa.js`. -/
inductive MpesaFn where
  | initiateSTKPush
  | verifyTransaction
  deriving DecidableEq, Repr

/-- The `module.exports` object of `src/utils/mpesa.js` (lines 181-184). -/
def mpesaExports : List (String × MpesaFn) :=
  [("initiateSTKPush", .initiateSTKPush), ("verifyTransaction", .verifyTransaction)]

/-- The binding made by line 9 of `src/routes/events.js`,
`const { mpesaPayment } = require('../utils/mpesa')`: the property
`mpesaPayment` of the exports object, `none` when there is no such
property (`undefined` in JavaScript). -/
def mpesaPayment : Option MpesaFn :=
  List.lookup "mpesaPayment" mpesaExports

/-- A call `f(phone, price)` of an exported function with the two arguments
the RSVP handler passes; a `null` price counts as `0` in arithmetic. -/
def MpesaFn.call (f : MpesaFn) (gw : Gateway) (phone : String) (price : Option ℚ) :
    JSObject :=
  match f with
  | .initiateSTKPush => EventSyns.initiateSTKPush gw phone (price.getD 0)
  | .verifyTransaction => EventSyns.verifyTransaction gw phone

/-! ## Route handlers (`src/routes/events.js`) -/

/-- What `res.status(..).json(..)` sends: the HTTP status (200 when
`res.json` is called without `res.status`) and the fields of the body. -/
structure Response where
  status : Nat
  success : Bool
  message : String
  paymentReference : Option String
  deriving DecidableEq, Repr

/-- The behaviour of the collaborators during one request: which awaited
storage operations reject, and what the payment provider does if asked. -/
structure Env where
  eventFindRejects : Bool
  userFindRejects : Bool
  eventSaveRejects : Bool
  userSaveRejects : Bool
  gateway : Gateway
  deriving DecidableEq, Repr

/-- A call made to a function of the gateway module. -/
structure GatewayCall where
  fn : MpesaFn
  phone : String
  amount : Option ℚ
  deriving DecidableEq, Repr

/-- The result of running a handler: the collections afterwards, the
response sent, and the gateway calls made on the way. -/
structure Outcome where
  store : Store
  response : Response
  gatewayCalls : List GatewayCall

/-- The test of line 313, `event.attendees.some(a => a.user.equals(req.user._id))`. -/
def isAttending (event : Event) (userId : Nat) : Bool :=
  event.attendees.any (fun attendee => attendee.user == userId)

/-- The test of line 322, `event.capacity && event.attendees.length >= event.capacity`,
as a boolean: a capacity of `0` is falsy. -/
def eventIsFull (event : Event) : Bool :=
  event.capacity != 0 && decide ((event.attendees.length : ℚ) ≥ event.capacity)

/-- The value stored by Mongoose for `paymentResult.CheckoutRequestID`: the
string if the property holds one, nothing if it is `undefined`. -/
def checkoutRequestID (paymentResult : JSObject) : Option String :=
  match paymentResult.prop "CheckoutRequestID" with
  | some (.str r) => some r
  | _ => none

/-- The tail shared by the three writing paths of the two handlers: the
event document, already changed in memory to `event1`, is saved; then the
user document is changed by `change` and saved; then `onSuccess` is sent.
A rejected save, or the `TypeError` of touching `user.attendingEvents` when
`User.findById` gave `null`, lands in the enclosing `catch`, which sends
`onError`; what was saved before stays saved. -/
def saveBoth (env : Env) (s : Store) (eventId userId : Nat) (event1 : Event)
    (change : User → User) (onError onSuccess : Response)
    (calls : List GatewayCall) : Outcome :=
  if env.eventSaveRejects then ⟨s, onError, calls⟩
  else
    match s.users userId with
    | none => ⟨s.saveEvent eventId event1, onError, calls⟩
    | some user =>
      if env.userSaveRejects then ⟨s.saveEvent eventId event1, onError, calls⟩
      else ⟨(s.saveEvent eventId event1).saveUser userId (change user), onSuccess, calls⟩

/-- The handler of `POST /:id/rsvp` (lines 303-377) with the imported
binding `mpesaPayment` as a parameter. `eventId` is `req.params.id`,
`userId` is `req.user._id`, `phone` is `req.body.phone`. -/
def rsvpHandler (binding : Option MpesaFn) (env : Env) (s : Store)
    (eventId userId : Nat) (phone : String) : Outcome :=
  let rsvpError : Response := ⟨500, false, "Error processing RSVP", none⟩
  let paymentError : Response := ⟨500, false, "Payment processing failed", none⟩
  if env.eventFindRejects then ⟨s, rsvpError, []⟩
  else if env.userFindRejects then ⟨s, rsvpError, []⟩
  else
    match s.events eventId with
    | none => ⟨s, ⟨404, false, "Event not found", none⟩, []⟩
    | some event =>
      if isAttending event userId then
        ⟨s, ⟨400, false, "Already attending this event", none⟩, []⟩
      else if eventIsFull event then
        ⟨s, ⟨400, false, "Event is full", none⟩, []⟩
      else if event.isPaid then
        match binding with
        | none =>
          -- `mpesaPayment(...)` with `mpesaPayment` undefined: TypeError, inner catch
          ⟨s, paymentError, []⟩
        | some f =>
          let paymentResult := f.call env.gateway phone event.price
          let reference := checkoutRequestID paymentResult
          saveBoth env s eventId userId
            { event with
              attendees := event.attendees ++ [⟨userId, .pending, reference⟩] }
            (fun user => { user with
              attendingEvents := user.attendingEvents ++ [⟨eventId, .pending, reference⟩] })
            paymentError
            ⟨200, true, "Payment initiated. Please complete the payment on your phone.",
             reference⟩
            [⟨f, phone, event.price⟩]
      else
        saveBoth env s eventId userId
          { event with attendees := event.attendees ++ [⟨userId, .paid, none⟩] }
          (fun user => { user with
            attendingEvents := user.attendingEvents ++ [⟨eventId, .paid, none⟩] })
          rsvpError
          ⟨200, true, "Successfully RSVP'd to event", none⟩
          []

/-- The handler of `POST /:id/rsvp` as the module runs it: with the binding
that line 9 makes. -/
def postRsvp (env : Env) (s : Store) (eventId userId : Nat) (phone : String) : Outcome :=
  rsvpHandler mpesaPayment env s eventId userId phone

/-- The handler of `DELETE /:id/rsvp` (lines 380-406). -/
def deleteRsvp (env : Env) (s : Store) (eventId userId : Nat) : Outcome :=
  let cancelError : Response := ⟨500, false, "Error cancelling RSVP", none⟩
  if env.eventFindRejects then ⟨s, cancelError, []⟩
  else if env.userFindRejects then ⟨s, cancelError, []⟩
  else
    match s.events eventId with
    | none => ⟨s, ⟨404, false, "Event not found", none⟩, []⟩
    | some event =>
      saveBoth env s eventId userId
        { event with
          attendees := event.attendees.filter (fun attendee => !(attendee.user == userId)) }
        (fun user => { user with
          attendingEvents :=
            user.attendingEvents.filter (fun attendance => !(attendance.event == eventId)) })
        cancelError
        ⟨200, true, "Successfully cancelled RSVP", none⟩
        []

/-! ## Sequential executions -/

/-- A request to one of the two registration routes. -/
inductive Request where
  | rsvp (eventId userId : Nat) (phone : String)
  | cancel (eventId userId : Nat)
  deriving DecidableEq, Repr

/-- One handler execution. -/
def handle (env : Env) (s : Store) : Request → Outcome
  | .rsvp eventId userId phone => postRsvp env s eventId userId phone
  | .cancel eventId userId => deleteRsvp env s eventId userId

/-- Handler executions run one after another, each under its own
environment; the collections after the last one. -/
def runAll (s : Store) : List (Env × Request) → Store
  | [] => s
  | (env, r) :: rest => runAll (handle env s r).store rest

/-! ## Vocabulary of the specification -/

/-- The number of attendances whose status is pending or paid. -/
def activeCount (ledger : List Attendance) : Nat :=
  ledger.countP (fun a => a.paymentStatus == .pending || a.paymentStatus == .paid)

/-- No two attendances of the ledger refer to the same user. -/
def UniqueByUser (ledger : List Attendance) : Prop :=
  (ledger.map (fun a => a.user)).Nodup

/-- An environment in which no storage operation rejects. -/
def Env.storageOk (env : Env) : Prop :=
  env.eventFindRejects = false ∧ env.userFindRejects = false ∧
  env.eventSaveRejects = false ∧ env.userSaveRejects = false

instance (env : Env) : Decidable env.storageOk := by
  unfold Env.storageOk; infer_instance

/-- The environment in which every storage operation succeeds and the
provider does as given. -/
def Env.ok (gw : Gateway) : Env := ⟨false, false, false, false, gw⟩

/-- The provider side makes a payment initiation fail: no access token, no
answer to the request, or an answer whose `ResponseCode` is not `"0"`. -/
def Gateway.initiationFails : Gateway → Prop
  | .authFailure => True
  | .networkFailure _ => True
  | .answer d => d.ResponseCode ≠ "0"

/-- The provider accepts a payment initiation and hands out the
`CheckoutRequestID` `r`. -/
def Gateway.accepts (gw : Gateway) (r : String) : Prop :=
  ∃ d, gw = .answer d ∧ d.ResponseCode = "0" ∧ d.CheckoutRequestID = r

/-! ## Concrete inputs used in the examples -/

/-- A store with one event, under id `1`, and one user, under id `7`. -/
def storeWith (e : Event) (u : User) : Store :=
  { events := fun i => if i = 1 then some e else none,
    users := fun i => if i = 7 then some u else none }

/-- A user registered nowhere. -/
def newUser : User := ⟨[], []⟩

/-- A user whose projection holds an entry for event `1`. -/
def staleUser : User := ⟨[], [⟨1, .paid, none⟩]⟩

/-- A free event of capacity `0` with an empty ledger. -/
def zeroCapacityEvent : Event := ⟨0, some 0, false, 9, []⟩

/-- A free event of capacity `2` with an empty ledger. -/
def freeEvent : Event := ⟨2, some 0, false, 9, []⟩

/-- A free event of capacity `1` whose only attendance, of user `8`, has failed. -/
def failedOtherEvent : Event := ⟨1, some 0, false, 9, [⟨8, .failed, none⟩]⟩

/-- A free event of capacity `5` whose only attendance, of user `7`, has failed. -/
def failedOwnEvent : Event := ⟨5, some 0, false, 9, [⟨7, .failed, none⟩]⟩

/-- A free event of capacity `5` attended by users `7` (paid) and `8` (pending). -/
def attendedEvent : Event := ⟨5, some 0, false, 9, [⟨7, .paid, none⟩, ⟨8, .pending, some "ws_CO_8"⟩]⟩

/-- A paid event of capacity `10` and price `500` with an empty ledger. -/
def paidEvent : Event := ⟨10, some 500, true, 9, []⟩

/-- The same paid event with user `7` in its ledger. -/
def paidAttendedEvent : Event := ⟨10, some 500, true, 9, [⟨7, .paid, none⟩]⟩

/-- A provider answer that accepts the initiation with id `ws_CO_1`. -/
def acceptingGateway : Gateway :=
  .answer ⟨"0", "Success. Request accepted for processing", "ws_CO_1", "mr_1",
    "Success", "", ""⟩

/-- The phone number sent with the example requests. -/
def demoPhone : String := "0712345678"

/-! ## Gateway module: building the request (`src/utils/mpesa.js`, lines 30-85) -/

/-- The effect of `s.replace(/\D/g, '')`: every character that is not one of
the decimal digits `0`-`9` is removed. -/
def removeNonDigits (s : String) : String :=
  String.mk (s.data.filter Char.isDigit)

/-- The effect of `s.replace(/^(0|\+254|254)/, '')`: the first alternative
that matches at the start of the string is removed, once. -/
def removeLeadingCode (s : String) : String :=
  match s.data with
  | '0' :: rest => String.mk rest
  | '+' :: '2' :: '5' :: '4' :: rest => String.mk rest
  | '2' :: '5' :: '4' :: rest => String.mk rest
  | _ => s

/-- The function `formatPhoneNumber` (lines 48-57). -/
def formatPhoneNumber (phoneNumber : String) : String :=
  let cleaned := removeNonDigits phoneNumber
  let cleaned := removeLeadingCode cleaned
  "254" ++ cleaned

/-- The components of a `Date` in local time as the getters return them:
`getFullYear()`, `getMonth()` (0 to 11), `getDate()`, `getHours()`,
`getMinutes()`, `getSeconds()`. Years are not negative. -/
structure LocalDate where
  fullYear : Nat
  month : Nat
  date : Nat
  hours : Nat
  minutes : Nat
  seconds : Nat
  deriving DecidableEq, Repr

/-- The ranges of the getters. -/
def LocalDate.Valid (d : LocalDate) : Prop :=
  d.month < 12 ∧ 1 ≤ d.date ∧ d.date ≤ 31 ∧ d.hours < 24 ∧ d.minutes < 60 ∧ d.seconds < 60

instance (d : LocalDate) : Decidable d.Valid := by
  unfold LocalDate.Valid; infer_instance

/-- The effect of `s.padStart(targetLength, padChar)` for a one-character pad. -/
def padStart (s : String) (targetLength : Nat) (padChar : Char) : String :=
  String.mk (List.replicate (targetLength - s.length) padChar ++ s.data)

/-- The function `generateTimestamp` (lines 31-40) for the date that
`new Date()` gave. `String(n)` of a natural number is its decimal
representation. -/
def generateTimestamp (date : LocalDate) : String :=
  let year := toString date.fullYear
  let month := padStart (toString (date.month + 1)) 2 '0'
  let day := padStart (toString date.date) 2 '0'
  let hour := padStart (toString date.hours) 2 '0'
  let minutes := padStart (toString date.minutes) 2 '0'
  let seconds := padStart (toString date.seconds) 2 '0'
  year ++ month ++ day ++ hour ++ minutes ++ seconds

/-- The number a string of decimal digits denotes (`parseInt(s, 10)` on
such a string). -/
def parseDecimal (s : String) : Nat :=
  s.data.foldl (fun acc c => acc * 10 + (c.toNat - 48)) 0

/-- The characters `from`, ..., `to - 1` of a string (`s.slice(from, to)`). -/
def slice (s : String) (start stop : Nat) : String :=
  String.mk ((s.data.drop start).take (stop - start))

/-- The values of `process.env` the gateway module reads. -/
structure MpesaConfig where
  CONSUMER_KEY : String
  CONSUMER_SECRET : String
  PASSKEY : String
  SHORTCODE : String
  BASE_URL : String
  deriving DecidableEq, Repr

/-- The base64 alphabet. -/
def base64Alphabet : List Char :=
  "ABCDEFGHIJKLMNOPQRSTUVWXYZabcdefghijklmnopqrstuvwxyz0123456789+/".data

/-- The base64 character of a six-bit value. -/
def base64Char (n : Nat) : Char := base64Alphabet.getD n 'A'

/-- Base64 of a sequence of bytes, with `=` padding. -/
def base64Encode : List Nat → List Char
  | [] => []
  | [a] => [base64Char (a / 4), base64Char (a % 4 * 16), '=', '=']
  | [a, b] =>
    [base64Char (a / 4), base64Char (a % 4 * 16 + b / 16), base64Char (b % 16 * 4), '=']
  | a :: b :: c :: rest =>
    base64Char (a / 4) :: base64Char (a % 4 * 16 + b / 16) ::
      base64Char (b % 16 * 4 + c / 64) :: base64Char (c % 64) :: base64Encode rest

/-- The UTF-8 encoding of a character: one byte below `0x80`, two below
`0x800`, three below `0x10000`, four from there on. -/
def utf8EncodeChar (c : Char) : List Nat :=
  if c.toNat < 128 then [c.toNat]
  else if c.toNat < 2048 then [192 + c.toNat / 64, 128 + c.toNat % 64]
  else if c.toNat < 65536 then
    [224 + c.toNat / 4096, 128 + c.toNat / 64 % 64, 128 + c.toNat % 64]
  else
    [240 + c.toNat / 262144, 128 + c.toNat / 4096 % 64, 128 + c.toNat / 64 % 64,
      128 + c.toNat % 64]

/-- The bytes of `Buffer.from(s)`: the UTF-8 encoding of the string. -/
def utf8Bytes (s : String) : List Nat :=
  s.data.flatMap utf8EncodeChar

/-- The function `generatePassword` (lines 43-45):
`Buffer.from(SHORTCODE + PASSKEY + timestamp).toString('base64')`. -/
def generatePassword (cfg : MpesaConfig) (timestamp : String) : String :=
  String.mk (base64Encode (utf8Bytes (cfg.SHORTCODE ++ cfg.PASSKEY ++ timestamp)))

/-- The effect of `Math.ceil` on a rational number. -/
def mathCeil (a : ℚ) : Int :=
  -((-a.num) / (a.den : Int))

/-- The body of the STK push request (lines 73-85). -/
structure STKPushRequest where
  BusinessShortCode : String
  Password : String
  Timestamp : String
  TransactionType : String
  Amount : Int
  PartyA : String
  PartyB : String
  PhoneNumber : String
  CallBackURL : String
  AccountReference : String
  TransactionDesc : String
  deriving DecidableEq, Repr

/-- The `requestBody` that `initiateSTKPush` builds (lines 63-85) for the
date that `new Date()` gave. -/
def requestBody (cfg : MpesaConfig) (date : LocalDate) (phoneNumber : String) (amount : ℚ)
    (eventId : String) : STKPushRequest :=
  let timestamp := generateTimestamp date
  let password := generatePassword cfg timestamp
  let formattedPhone := formatPhoneNumber phoneNumber
  { BusinessShortCode := cfg.SHORTCODE
    Password := password
    Timestamp := timestamp
    TransactionType := "CustomerPayBillOnline"
    Amount := mathCeil amount
    PartyA := formattedPhone
    PartyB := cfg.SHORTCODE
    PhoneNumber := formattedPhone
    CallBackURL := cfg.BASE_URL ++ "/events/mpesa/callback"
    AccountReference := "Event-" ++ eventId
    TransactionDesc := "Event Payment" }

/-! ## Gateway module: how `initiateSTKPush` settles -/

/-- The `try` block of `initiateSTKPush` (lines 61-114) from the provider's
side: the object it returns, or the text (`error.response?.data ||
error.message`) of the exception it throws. -/
def initiateSTKPushTry (gw : Gateway) : Except String JSObject :=
  match gw with
  | .authFailure => .error "Failed to get access token"
  | .networkFailure error => .error error
  | .answer d =>
    if d.ResponseCode = "0" then
      .ok [("success", .bool true),
           ("data", .record
              [("CheckoutRequestID", d.CheckoutRequestID),
               ("MerchantRequestID", d.MerchantRequestID),
               ("ResponseCode", d.ResponseCode),
               ("ResponseDescription", d.ResponseDescription),
               ("CustomerMessage", d.CustomerMessage)])]
    else
      .error (if d.ResponseDescription = "" then "STK push failed"
              else d.ResponseDescription)

/-- How the promise that `initiateSTKPush` returns settles: `.ok v` is
resolved with `v`, `.error e` is rejected with `e`. The `catch` block
(lines 115-126) turns every exception of the `try` block into a returned
object. -/
def initiateSTKPushSettled (gw : Gateway) (_phoneNumber : String) (_amount : ℚ) :
    Except String JSObject :=
  match initiateSTKPushTry gw with
  | .ok value => .ok value
  | .error error => .ok (stkFailure error)

/-- The string under key `k` of the `data` property of a returned object. -/
def JSObject.dataField (o : JSObject) (k : String) : Option String :=
  match o.prop "data" with
  | some (.record fields) => List.lookup k fields
  | _ => none

/-- A provider answer that rejects the initiation. -/
def rejectingAnswer : ProviderData :=
  ⟨"1", "Rejected", "", "", "", "", ""⟩

/-- The environment values of the examples. -/
def demoConfig : MpesaConfig :=
  ⟨"key", "secret", "passkey", "174379", "https://example.org"⟩

/-- The date of the examples: 5 March 2024, 09:07:03. -/
def demoDate : LocalDate := ⟨2024, 2, 5, 9, 7, 3⟩

/-! ## Gateway module: the status query and base64 decoding -/

/-- The body of the status query (lines 136-141). -/
structure STKQueryRequest where
  BusinessShortCode : String
  Password : String
  Timestamp : String
  CheckoutRequestID : String
  deriving DecidableEq, Repr

/-- The `requestBody` that `verifyTransaction` builds (lines 133-141) for the
date that `new Date()` gave. -/
def queryBody (cfg : MpesaConfig) (date : LocalDate) (checkoutRequestID : String) :
    STKQueryRequest :=
  let timestamp := generateTimestamp date
  let password := generatePassword cfg timestamp
  { BusinessShortCode := cfg.SHORTCODE
    Password := password
    Timestamp := timestamp
    CheckoutRequestID := checkoutRequestID }

/-- The six-bit value of a base64 character: its place in the alphabet. -/
def base64Value (c : Char) : Nat := base64Alphabet.indexOf c

/-- Base64 decoding of padded text: every group of four characters gives
three bytes, a group ending in `=` two, a group ending in `==` one. -/
def base64Decode : List Char → List Nat
  | c1 :: c2 :: c3 :: c4 :: rest =>
    if c3 = '=' then
      [base64Value c1 * 4 + base64Value c2 / 16]
    else if c4 = '=' then
      [base64Value c1 * 4 + base64Value c2 / 16,
       base64Value c2 % 16 * 16 + base64Value c3 / 4]
    else
      (base64Value c1 * 4 + base64Value c2 / 16) ::
        (base64Value c2 % 16 * 16 + base64Value c3 / 4) ::
        (base64Value c3 % 4 * 64 + base64Value c4) :: base64Decode rest
  | _ => []

/-- UTF-8 decoding of a sequence of bytes, one byte at a time: `need` is the
number of continuation bytes still expected and `acc` the value read so far.
A lead byte below `0x80` is a character, one below `0xE0` expects one
continuation byte, one below `0xF0` two, any other three; a continuation byte
adds its low six bits. -/
def utf8DecodeAux : List Nat → Nat → Nat → List Char
  | [], _, _ => []
  | b :: rest, acc, need =>
    if need = 0 then
      if b < 128 then Char.ofNat b :: utf8DecodeAux rest 0 0
      else if b < 224 then utf8DecodeAux rest (b - 192) 1
      else if b < 240 then utf8DecodeAux rest (b - 224) 2
      else utf8DecodeAux rest (b - 240) 3
    else if need = 1 then Char.ofNat (acc * 64 + (b - 128)) :: utf8DecodeAux rest 0 0
    else utf8DecodeAux rest (acc * 64 + (b - 128)) (need - 1)

/-- The text that a sequence of bytes is the UTF-8 encoding of. -/
def utf8Decode (bytes : List Nat) : String := String.mk (utf8DecodeAux bytes 0 0)

/-! ## The route table (`src/app.js`, lines 34-126, and the four routers) -/

/-- The HTTP methods the routers register handlers for. -/
inductive Method where
  | GET
  | POST
  | PUT
  | DELETE
  deriving DecidableEq, Repr

/-- One segment of a route path: a literal or a `:name` parameter. -/
inductive Segment where
  | lit (text : String)
  | param (name : String)
  deriving DecidableEq, Repr

/-- A route registered on a router: `router.METHOD(path, ...)`. -/
structure Route where
  method : Method
  path : List Segment
  deriving DecidableEq, Repr

/-- The routes of `src/routes/index.js`, in registration order. -/
def indexRoutes : List Route :=
  [⟨.GET, []⟩,
   ⟨.GET, [.lit "about"]⟩,
   ⟨.GET, [.lit "contact"]⟩,
   ⟨.POST, [.lit "contact"]⟩,
   ⟨.POST, [.lit "subscribe"]⟩,
   ⟨.POST, [.lit "auth", .lit "forgot-password"]⟩,
   ⟨.GET, [.lit "auth", .lit "reset-password", .param "token"]⟩,
   ⟨.POST, [.lit "auth", .lit "reset-password", .param "token"]⟩]

/-- The routes of `src/routes/auth.js`, in registration order. -/
def authRoutes : List Route :=
  [⟨.GET, [.lit "login"]⟩,
   ⟨.POST, [.lit "login"]⟩,
   ⟨.GET, [.lit "register"]⟩,
   ⟨.POST, [.lit "register"]⟩,
   ⟨.GET, [.lit "logout"]⟩,
   ⟨.GET, [.lit "forgot-password"]⟩,
   ⟨.POST, [.lit "forgot-password"]⟩,
   ⟨.GET, [.lit "reset-password", .param "token"]⟩,
   ⟨.POST, [.lit "reset-password", .param "token"]⟩,
   ⟨.GET, [.lit "verify", .param "token"]⟩]

/-- The routes of `src/routes/events.js`, in registration order. -/
def eventsRoutes : List Route :=
  [⟨.GET, []⟩,
   ⟨.GET, [.lit "create"]⟩,
   ⟨.POST, []⟩,
   ⟨.GET, [.param "id"]⟩,
   ⟨.GET, [.param "id", .lit "edit"]⟩,
   ⟨.PUT, [.param "id"]⟩,
   ⟨.DELETE, [.param "id"]⟩,
   ⟨.POST, [.param "id", .lit "rsvp"]⟩,
   ⟨.DELETE, [.param "id", .lit "rsvp"]⟩]

/-- The routes of `src/routes/users.js`, in registration order. -/
def usersRoutes : List Route :=
  [⟨.GET, [.lit "dashboard"]⟩,
   ⟨.GET, [.lit "profile"]⟩,
   ⟨.PUT, [.lit "profile"]⟩,
   ⟨.GET, [.param "id"]⟩]

/-- The routers with their mount paths, in the order of `app.use`
(lines 114-117 of `src/app.js`). -/
def mounts : List (List String × List Route) :=
  [([], indexRoutes), (["auth"], authRoutes), (["events"], eventsRoutes),
   (["users"], usersRoutes)]

/-- A string with its letters `A`-`Z` in lower case (route matching does not
look at case). -/
def lowerCase (s : String) : String :=
  String.mk (s.data.map Char.toLower)

/-- Whether a route path matches the segments of a request path: literals
match their own text regardless of case, a parameter matches any one
non-empty segment, and the numbers of segments agree. -/
def matchPath : List Segment → List String → Bool
  | [], [] => true
  | .lit text :: ps, seg :: segs => lowerCase text == lowerCase seg && matchPath ps segs
  | .param _ :: ps, seg :: segs => seg != "" && matchPath ps segs
  | _, _ => false

/-- What is left of a request path under a mount path, if the mount path
is its beginning. -/
def underMount : List String → List String → Option (List String)
  | [], segs => some segs
  | m :: ms, seg :: segs => if lowerCase m == lowerCase seg then underMount ms segs else none
  | _ :: _, [] => none

/-- The first route, over the routers in mount order, that matches the
method and the path. -/
def findRoute (method : Method) (segs : List String) : Option (List String × Route) :=
  mounts.findSome? (fun mount =>
    match underMount mount.1 segs with
    | none => none
    | some rest =>
      (mount.2.find? (fun r => r.method == method && matchPath r.path rest)).map
        (fun r => (mount.1, r)))

/-- What can go wrong around the routers during one request: a middleware
before them (body parsers, session, passport) passes an error on, or the
rendering of a view throws. -/
structure AppEnv where
  middlewareFails : Bool
  renderFails : Bool
  deriving DecidableEq, Repr

/-- Where the application sends a request. -/
inductive Dispatch where
  | errorHandler
  | routed (mount : List String) (route : Route)
  | notFound
  deriving DecidableEq, Repr

/-- The effect of `methodOverride('_method')` (line 38): a request sent as
`POST` takes the method named in its `_method` query value, if any. -/
def effectiveMethod (method : Method) (queryMethod : Option Method) : Method :=
  match method, queryMethod with
  | .POST, some m => m
  | m, _ => m

/-- The application as `src/app.js` assembles it: the middleware, the four
routers, the 404 handler (lines 120-125) and the error handler (line 128). -/
def dispatch (env : AppEnv) (method : Method) (queryMethod : Option Method)
    (segs : List String) : Dispatch :=
  if env.middlewareFails then .errorHandler
  else
    match findRoute (effectiveMethod method queryMethod) segs with
    | some (mount, route) => .routed mount route
    | none => if env.renderFails then .errorHandler else .notFound

/-- The HTTP status the application itself sends: 404 from the 404 handler,
500 from the error handler; a routed request gets its status from the
route's handler. -/
def Dispatch.status : Dispatch → Option Nat
  | .errorHandler => some 500
  | .notFound => some 404
  | .routed _ _ => none

/-- The collections after a request the application answers itself: the
404 handler and the error handler touch neither collection. -/
def Dispatch.store (d : Dispatch) (s : Store) : Option Store :=
  match d with
  | .errorHandler => some s
  | .notFound => some s
  | .routed _ _ => none

/-- The path of the `CallBackURL` that `initiateSTKPush` sends (line 82),
below the application's base URL. -/
def callbackPath : List String := ["events", "mpesa", "callback"]

/-- The body of a provider callback. -/
structure CallbackBody where
  CheckoutRequestID : String
  ResultCode : Int
  ResultDesc : String
  deriving DecidableEq, Repr

/-- The application's handling of a provider callback: a `POST` to the
callback path; the body is parsed by the middleware and read by no one. -/
def postCallback (env : AppEnv) (queryMethod : Option Method) (_body : CallbackBody) :
    Dispatch :=
  dispatch env .POST queryMethod callbackPath

/-! ## Creating and updating an event (`src/routes/events.js`, lines 96-130, 202-254) -/

/-- The `price` property of `req.body`, by what the two readers make of it:
the comparison `req.body.price > 0` (lines 101 and 219) and the schema's
`Number` cast. It is absent (`undefined`); or blank (the empty string of a
form field left empty, or `null`), which compares as `0` and is cast to
`null`; or a value that both read as the number `q`; or a value that reads
as no number, which compares as `NaN` and which the cast rejects. -/
inductive BodyPrice where
  | missing
  | blank
  | number (q : ℚ)
  | notNumber
  deriving DecidableEq, Repr

/-- The properties of `req.body` that reach the fields of the model. The
`capacity` is the number the body gives, `none` when the body gives none. A
blank `capacity`, which an update stores as `null`, is the number `0` here:
the comparisons of lines 156 and 322 and the two virtuals read `null` as
`0`. -/
structure EventForm where
  price : BodyPrice
  capacity : Option ℚ
  deriving DecidableEq, Repr

/-- The expression `req.body.price > 0` (lines 101 and 219): `undefined > 0`
and `NaN > 0` are `false`, a blank value compares as `0`. -/
def priceIsPositive : BodyPrice → Bool
  | .missing => false
  | .blank => false
  | .number q => decide (q > 0)
  | .notNumber => false

/-- The document that `Event.create(eventData)` stores (lines 98-112) for a
body without an `attendees` property: an absent `price` falls back to the
schema default `0`, a blank one is stored as `null`, the ledger starts
empty; without the required `capacity`, or with a price the cast rejects,
nothing is stored. -/
def createdEvent (form : EventForm) (creator : Nat) : Option Event :=
  match form.capacity, form.price with
  | none, _ => none
  | some _, .notNumber => none
  | some capacity, .missing => some ⟨capacity, some 0, false, creator, []⟩
  | some capacity, .blank => some ⟨capacity, none, false, creator, []⟩
  | some capacity, .number q => some ⟨capacity, some q, decide (q > 0), creator, []⟩

/-- The document that `Event.findByIdAndUpdate(id, updateData)` leaves
(lines 217-236): the fields present in the body are replaced, `isPaid` is
always replaced by `req.body.price > 0`, the rest stays; with a price the
cast rejects, nothing is changed. -/
def updatedEvent (form : EventForm) (old : Event) : Option Event :=
  match form.price with
  | .notNumber => none
  | .missing =>
    some { old with capacity := form.capacity.getD old.capacity, isPaid := false }
  | .blank =>
    some { old with capacity := form.capacity.getD old.capacity, price := none,
                    isPaid := false }
  | .number q =>
    some { old with capacity := form.capacity.getD old.capacity, price := some q,
                    isPaid := decide (q > 0) }

/-! ## The virtuals of the Event model (`src/models/Event.js`, lines 73-81) -/

/-- The virtual `isFull`: `this.attendees.length >= this.capacity`. -/
def Event.isFull (e : Event) : Bool :=
  decide ((e.attendees.length : ℚ) ≥ e.capacity)

/-- The virtual `remainingSpots`:
`Math.max(0, this.capacity - this.attendees.length)`. -/
def Event.remainingSpots (e : Event) : ℚ :=
  max 0 (e.capacity - (e.attendees.length : ℚ))

/-- The value `isFull` that the event-details route computes (line 156 of
`src/routes/events.js`), as a boolean:
`event.capacity && event.attendees.length >= event.capacity`. -/
def detailsIsFull (event : Event) : Bool :=
  event.capacity != 0 && decide ((event.attendees.length : ℚ) ≥ event.capacity)

/-! ## Sequential executions with their responses -/

/-- Handler executions run one after another: the responses, in order, and
the collections after the last one. -/
def runResponses (s : Store) : List (Env × Request) → List Response × Store
  | [] => ([], s)
  | (env, r) :: rest =>
    ((handle env s r).response :: (runResponses (handle env s r).store rest).1,
     (runResponses (handle env s r).store rest).2)

/-- The response of a successful RSVP to a free event (line 372). -/
def rsvpRegistered : Response := ⟨200, true, "Successfully RSVP'd to event", none⟩

/-- The response of an RSVP rejected as full (line 323). -/
def rsvpFull : Response := ⟨400, false, "Event is full", none⟩

/-- The RSVP requests of a list of users for one event, each under its own
environment and with its own phone number. -/
def rsvpRequests (eventId : Nat) (envOf : Nat → Env) (phoneOf : Nat → String)
    (users : List Nat) : List (Env × Request) :=
  users.map (fun u => (envOf u, Request.rsvp eventId u (phoneOf u)))

/-- The rational number two and a half, by numerator and denominator. -/
def twoAndAHalf : ℚ := ⟨5, 2, by decide, by decide⟩

/-- A store with the free event `1` of capacity two and a half and the users
`7`, `8` and `9`. -/
def fractionalStore : Store :=
  { events := fun i => if i = 1 then some ⟨twoAndAHalf, some 0, false, 9, []⟩ else none,
    users := fun i => if i = 7 ∨ i = 8 ∨ i = 9 then some ⟨[], []⟩ else none }

/-- A store with the free event `1` of capacity `1` and the users `7`, `8`
and `9`. -/
def threeUserStore : Store :=
  { events := fun i => if i = 1 then some ⟨1, some 0, false, 9, []⟩ else none,
    users := fun i => if i = 7 ∨ i = 8 ∨ i = 9 then some ⟨[], []⟩ else none }

/-! ## Interleaved executions of the RSVP handler

An `async` handler runs without interruption from one `await` to the next;
between two such blocks the blocks of other requests may run. Each awaited
storage operation takes effect on the collections as they are when it
resolves. In this part every storage operation resolves, and the binding of
`mpesaPayment` is the one the module makes. -/

/-- Where an RSVP request stands: before `Event.findById` resolves, before
`User.findById` resolves, before `event.save()` resolves, before
`user.save()` resolves, or answered. -/
inductive RsvpPhase where
  | start
  | eventLoaded (event : Option Event)
  | savingEvent (user : Option User)
  | savingUser
  | finished (response : Response)
  deriving DecidableEq, Repr

/-- A request to `POST /:id/rsvp` in flight. -/
structure RsvpTask where
  eventId : Nat
  userId : Nat
  phase : RsvpPhase
  deriving DecidableEq, Repr

/-- Effect of `event.save()` after `event.attendees.push(a)`: Mongoose sends
the push of `a` to the stored document, whose ledger gets `a` at its end. -/
def Store.pushAttendee (s : Store) (eventId : Nat) (a : Attendance) : Store :=
  match s.events eventId with
  | none => s
  | some e => s.saveEvent eventId { e with attendees := e.attendees ++ [a] }

/-- Effect of `user.save()` after `user.attendingEvents.push(r)`. -/
def Store.pushAttending (s : Store) (userId : Nat) (r : AttendanceRef) : Store :=
  match s.users userId with
  | none => s
  | some u => s.saveUser userId { u with attendingEvents := u.attendingEvents ++ [r] }

/-- The next block of an RSVP request (lines 303-377): the awaited operation
resolves and the handler runs on to its next `await` or to its answer. -/
def stepTask (t : RsvpTask) (s : Store) : RsvpTask × Store :=
  match t.phase with
  | .start =>
    -- `Event.findById` resolves
    ({ t with phase := .eventLoaded (s.events t.eventId) }, s)
  | .eventLoaded none =>
    ({ t with phase := .finished ⟨404, false, "Event not found", none⟩ }, s)
  | .eventLoaded (some event) =>
    -- `User.findById` resolves; the checks run on the event as it was loaded
    if isAttending event t.userId then
      ({ t with phase := .finished ⟨400, false, "Already attending this event", none⟩ }, s)
    else if eventIsFull event then
      ({ t with phase := .finished ⟨400, false, "Event is full", none⟩ }, s)
    else if event.isPaid then
      ({ t with phase := .finished ⟨500, false, "Payment processing failed", none⟩ }, s)
    else
      ({ t with phase := .savingEvent (s.users t.userId) }, s)
  | .savingEvent user =>
    -- `event.save()` resolves
    match s.events t.eventId, user with
    | none, _ => ({ t with phase := .finished ⟨500, false, "Error processing RSVP", none⟩ }, s)
    | some _, none =>
      ({ t with phase := .finished ⟨500, false, "Error processing RSVP", none⟩ },
       s.pushAttendee t.eventId ⟨t.userId, .paid, none⟩)
    | some _, some _ =>
      ({ t with phase := .savingUser }, s.pushAttendee t.eventId ⟨t.userId, .paid, none⟩)
  | .savingUser =>
    -- `user.save()` resolves
    match s.users t.userId with
    | none => ({ t with phase := .finished ⟨500, false, "Error processing RSVP", none⟩ }, s)
    | some _ =>
      ({ t with phase := .finished ⟨200, true, "Successfully RSVP'd to event", none⟩ },
       s.pushAttending t.userId ⟨t.eventId, .paid, none⟩)
  | .finished response => ({ t with phase := .finished response }, s)

/-- The collections and the requests in flight. -/
structure System where
  store : Store
  tasks : List RsvpTask

/-- The request with index `i` runs its next block. -/
def System.step (sys : System) (i : Nat) : System :=
  match sys.tasks[i]? with
  | none => sys
  | some t => ⟨(stepTask t sys.store).2, sys.tasks.set i (stepTask t sys.store).1⟩

/-- The blocks run in the order of the schedule, a list of request indices. -/
def System.run (sys : System) : List Nat → System
  | [] => sys
  | i :: rest => (sys.step i).run rest

/-- The phases of the requests. -/
def System.phases (sys : System) : List RsvpPhase :=
  sys.tasks.map (fun t => t.phase)

/-- Users `7` and `8` both ask for the one place of event `1`. -/
def twoRequests : System :=
  ⟨threeUserStore, [⟨1, 7, .start⟩, ⟨1, 8, .start⟩]⟩

/-! ## Event deletion (`src/routes/events.js`, lines 257-300) -/

/-- The behaviour of the collaborators during one `DELETE /:id` request:
which awaited storage operations reject, and whether removing the image
file (`fs.existsSync` / `fs.unlinkSync`, lines 272-277) throws. -/
structure DeleteEnv where
  eventFindRejects : Bool
  imageRemovalThrows : Bool
  creatorUpdateRejects : Bool
  attendeesUpdateRejects : Bool
  eventDeleteRejects : Bool
  deriving DecidableEq, Repr

/-- What a page route sends: `req.flash(kind, message)` followed by
`res.redirect(location)`. -/
structure Redirect where
  kind : String
  message : String
  location : String
  deriving DecidableEq, Repr

/-- The result of running the deletion handler. -/
structure PageOutcome where
  store : Store
  response : Redirect

/-- Effect of `User.findByIdAndUpdate(creator, { $pull: { eventsCreated: id } })`. -/
def Store.pullCreated (s : Store) (creator eventId : Nat) : Store :=
  { s with users := fun j =>
      if j = creator then
        (s.users j).map (fun u => { u with
          eventsCreated := u.eventsCreated.filter (fun i => !(i == eventId)) })
      else s.users j }

/-- Effect of `User.updateMany({ 'attendingEvents.event': id },
{ $pull: { attendingEvents: { event: id } } })`: every user document loses
its entries for the event. -/
def Store.pullAttending (s : Store) (eventId : Nat) : Store :=
  { s with users := fun j =>
      (s.users j).map (fun u => { u with
        attendingEvents := u.attendingEvents.filter (fun r => !(r.event == eventId)) }) }

/-- Effect of `Event.findByIdAndDelete(id)`. -/
def Store.removeEvent (s : Store) (eventId : Nat) : Store :=
  { s with events := fun j => if j = eventId then none else s.events j }

/-- The handler of `DELETE /:id` (lines 257-300). `eventId` is
`req.params.id`, `userId` is `req.user._id`. Each awaited write that has
resolved stays in the store when a later step lands in the `catch`. -/
def deleteEvent (env : DeleteEnv) (s : Store) (eventId userId : Nat) : PageOutcome :=
  let deleteError : Redirect := ⟨"error", "Error deleting event", "/events"⟩
  if env.eventFindRejects then ⟨s, deleteError⟩
  else
    match s.events eventId with
    | none => ⟨s, ⟨"error", "Event not found", "/events"⟩⟩
    | some event =>
      if !(event.creator == userId) then ⟨s, ⟨"error", "Not authorized", "/events"⟩⟩
      else if env.imageRemovalThrows then ⟨s, deleteError⟩
      else if env.creatorUpdateRejects then ⟨s, deleteError⟩
      else
        let s1 := s.pullCreated event.creator eventId
        if env.attendeesUpdateRejects then ⟨s1, deleteError⟩
        else
          let s2 := s1.pullAttending eventId
          if env.eventDeleteRejects then ⟨s2, deleteError⟩
          else
            ⟨s2.removeEvent eventId, ⟨"success", "Event deleted successfully!", "/events"⟩⟩

/-! ## The two records of a registration -/

/-- The attendee ledger stored for an event id; empty when no such event is
stored. -/
def ledgerOf (s : Store) (eventId : Nat) : List Attendance :=
  match s.events eventId with
  | some e => e.attendees
  | none => []

/-- The `attendingEvents` projection stored for a user id; empty when no
such user is stored. -/
def projectionOf (s : Store) (userId : Nat) : List AttendanceRef :=
  match s.users userId with
  | some u => u.attendingEvents
  | none => []

/-- The mirror relation for one event: for every user, the ledger holds an
attendance of that user with a given status and reference exactly when the
user's projection holds an entry for the event with that status and
reference. -/
def Mirror (s : Store) (eventId : Nat) : Prop :=
  ∀ (userId : Nat) (st : PaymentStatus) (ref : Option String),
    (⟨userId, st, ref⟩ : Attendance) ∈ ledgerOf s eventId ↔
      (⟨eventId, st, ref⟩ : AttendanceRef) ∈ projectionOf s userId

/-- The environment of a deletion in which nothing rejects or throws. -/
def DeleteEnv.ok : DeleteEnv := ⟨false, false, false, false, false⟩

/-- A store with event `1` (created by user `9`, attended by `7` and `8`)
and the users `7`, `8` and `9`, the two records mirroring each other. -/
def mirroredStore : Store :=
  { events := fun i =>
      if i = 1 then some ⟨5, some 0, false, 9, [⟨7, .paid, none⟩, ⟨8, .pending, some "ws_CO_8"⟩]⟩
      else none,
    users := fun i =>
      if i = 7 then some ⟨[], [⟨1, .paid, none⟩]⟩
      else if i = 8 then some ⟨[], [⟨1, .pending, some "ws_CO_8"⟩]⟩
      else if i = 9 then some ⟨[1], []⟩
      else none }

/-! ## Basic facts -/

/-- The exports object has no property `mpesaPayment`. -/
theorem mpesaPayment_undefined : mpesaPayment = none := by decide

/-- The event collection after the two saves. -/
theorem saveBoth_events (env : Env) (s : Store) (eventId userId : Nat) (event1 : Event)
    (change : User → User) (onError onSuccess : Response) (calls : List GatewayCall)
    (eid : Nat) :
    (saveBoth env s eventId userId event1 change onError onSuccess calls).store.events eid =
      if env.eventSaveRejects = true then s.events eid
      else if eid = eventId then some event1 else s.events eid := by
  unfold saveBoth
  by_cases h1 : env.eventSaveRejects = true
  · simp [h1]
  · cases hu : s.users userId with
    | none => simp [h1, Store.saveEvent]
    | some u =>
      by_cases h2 : env.userSaveRejects = true <;>
        simp [h1, h2, Store.saveEvent, Store.saveUser]

/-- The user collection after the two saves. -/
theorem saveBoth_users (env : Env) (s : Store) (eventId userId : Nat) (event1 : Event)
    (change : User → User) (onError onSuccess : Response) (calls : List GatewayCall)
    (uid : Nat) :
    (saveBoth env s eventId userId event1 change onError onSuccess calls).store.users uid =
      if env.eventSaveRejects = true ∨ env.userSaveRejects = true then s.users uid
      else if uid = userId then (s.users userId).map change else s.users uid := by
  unfold saveBoth
  by_cases h1 : env.eventSaveRejects = true
  · simp [h1]
  · cases hu : s.users userId with
    | none =>
      by_cases h3 : uid = userId <;> simp [h1, Store.saveEvent, h3, hu]
    | some u =>
      by_cases h2 : env.userSaveRejects = true <;>
        simp [h1, h2, Store.saveEvent, Store.saveUser]

/-- The response after the two saves. -/
theorem saveBoth_response (env : Env) (s : Store) (eventId userId : Nat) (event1 : Event)
    (change : User → User) (onError onSuccess : Response) (calls : List GatewayCall) :
    (saveBoth env s eventId userId event1 change onError onSuccess calls).response =
      if env.eventSaveRejects = false ∧ env.userSaveRejects = false ∧
          (s.users userId).isSome = true then onSuccess else onError := by
  unfold saveBoth
  by_cases h1 : env.eventSaveRejects = true
  · simp [h1]
  · cases hu : s.users userId with
    | none => simp [h1]
    | some u => by_cases h2 : env.userSaveRejects = true <;> simp [h1, h2]

/-- The gateway calls recorded are those handed in. -/
theorem saveBoth_calls (env : Env) (s : Store) (eventId userId : Nat) (event1 : Event)
    (change : User → User) (onError onSuccess : Response) (calls : List GatewayCall) :
    (saveBoth env s eventId userId event1 change onError onSuccess calls).gatewayCalls =
      calls := by
  unfold saveBoth
  split_ifs <;> (try split) <;> rfl

/-- What one RSVP execution does to the document of any event: it keeps the
capacity, the price and the paid flag, and the ledger is either untouched
or extended at the end by one attendance of the requesting user, who was
not in the ledger, while the fullness test was negative. -/
theorem rsvpHandler_event (binding : Option MpesaFn) (env : Env) (s : Store)
    (eventId userId : Nat) (phone : String) (eid : Nat) (e : Event)
    (h : s.events eid = some e) :
    ∃ e1, (rsvpHandler binding env s eventId userId phone).store.events eid = some e1 ∧
      e1.capacity = e.capacity ∧ e1.isPaid = e.isPaid ∧ e1.price = e.price ∧
      (e1.attendees = e.attendees ∨
        ∃ a, e1.attendees = e.attendees ++ [a] ∧ a.user = userId ∧
          isAttending e userId = false ∧ eventIsFull e = false) := by
  have keep : ∃ e1, s.events eid = some e1 ∧
      e1.capacity = e.capacity ∧ e1.isPaid = e.isPaid ∧ e1.price = e.price ∧
      (e1.attendees = e.attendees ∨
        ∃ a, e1.attendees = e.attendees ++ [a] ∧ a.user = userId ∧
          isAttending e userId = false ∧ eventIsFull e = false) :=
    ⟨e, h, rfl, rfl, rfl, Or.inl rfl⟩
  unfold rsvpHandler
  dsimp only
  by_cases h1 : env.eventFindRejects = true
  · rw [if_pos h1]; exact keep
  rw [if_neg h1]
  by_cases h2 : env.userFindRejects = true
  · rw [if_pos h2]; exact keep
  rw [if_neg h2]
  cases hev : s.events eventId with
  | none => exact keep
  | some ev =>
    dsimp only
    by_cases h3 : isAttending ev userId = true
    · rw [if_pos h3]; exact keep
    rw [if_neg h3]
    by_cases h4 : eventIsFull ev = true
    · rw [if_pos h4]; exact keep
    rw [if_neg h4]
    have tail : ∀ (st : PaymentStatus) (ref : Option String) (change : User → User)
        (onError onSuccess : Response) (calls : List GatewayCall),
        ∃ e1, (saveBoth env s eventId userId
            { ev with attendees := ev.attendees ++ [⟨userId, st, ref⟩] }
            change onError onSuccess calls).store.events eid = some e1 ∧
          e1.capacity = e.capacity ∧ e1.isPaid = e.isPaid ∧ e1.price = e.price ∧
          (e1.attendees = e.attendees ∨
            ∃ a, e1.attendees = e.attendees ++ [a] ∧ a.user = userId ∧
              isAttending e userId = false ∧ eventIsFull e = false) := by
      intro st ref change onError onSuccess calls
      rw [saveBoth_events]
      by_cases h5 : env.eventSaveRejects = true
      · rw [if_pos h5]; exact keep
      rw [if_neg h5]
      by_cases hid : eid = eventId
      · rw [if_pos hid]
        subst hid
        rw [h] at hev
        cases hev
        refine ⟨_, rfl, rfl, rfl, rfl, Or.inr ⟨⟨userId, st, ref⟩, rfl, rfl, ?_, ?_⟩⟩
        · simpa using h3
        · simpa using h4
      · rw [if_neg hid]; exact keep
    by_cases h6 : ev.isPaid = true
    · rw [if_pos h6]
      cases binding with
      | none => exact keep
      | some f => exact tail _ _ _ _ _ _
    · rw [if_neg h6]
      exact tail _ _ _ _ _ _

/-- What one cancel execution does to the document of any event: it keeps
the capacity, the price and the paid flag, and the ledger is either
untouched or has lost exactly the attendances of the requesting user. -/
theorem deleteRsvp_event (env : Env) (s : Store) (eventId userId : Nat)
    (eid : Nat) (e : Event) (h : s.events eid = some e) :
    ∃ e1, (deleteRsvp env s eventId userId).store.events eid = some e1 ∧
      e1.capacity = e.capacity ∧ e1.isPaid = e.isPaid ∧ e1.price = e.price ∧
      (e1.attendees = e.attendees ∨
        e1.attendees = e.attendees.filter (fun a => !(a.user == userId))) := by
  have keep : ∃ e1, s.events eid = some e1 ∧
      e1.capacity = e.capacity ∧ e1.isPaid = e.isPaid ∧ e1.price = e.price ∧
      (e1.attendees = e.attendees ∨
        e1.attendees = e.attendees.filter (fun a => !(a.user == userId))) :=
    ⟨e, h, rfl, rfl, rfl, Or.inl rfl⟩
  unfold deleteRsvp
  dsimp only
  by_cases h1 : env.eventFindRejects = true
  · rw [if_pos h1]; exact keep
  rw [if_neg h1]
  by_cases h2 : env.userFindRejects = true
  · rw [if_pos h2]; exact keep
  rw [if_neg h2]
  cases hev : s.events eventId with
  | none => exact keep
  | some ev =>
    dsimp only
    rw [saveBoth_events]
    by_cases h5 : env.eventSaveRejects = true
    · rw [if_pos h5]; exact keep
    rw [if_neg h5]
    by_cases hid : eid = eventId
    · rw [if_pos hid]
      subst hid
      rw [h] at hev
      cases hev
      exact ⟨_, rfl, rfl, rfl, rfl, Or.inr rfl⟩
    · rw [if_neg hid]; exact keep

/-- One handler execution, seen from the ledger of any event. -/
theorem handle_event (env : Env) (s : Store) (r : Request) (eid : Nat) (e : Event)
    (h : s.events eid = some e) :
    ∃ e1, (handle env s r).store.events eid = some e1 ∧
      e1.capacity = e.capacity ∧ e1.isPaid = e.isPaid ∧ e1.price = e.price ∧
      (e1.attendees = e.attendees ∨
        (∃ a, e1.attendees = e.attendees ++ [a] ∧
          isAttending e a.user = false ∧ eventIsFull e = false) ∨
        ∃ uid, e1.attendees = e.attendees.filter (fun a => !(a.user == uid))) := by
  cases r with
  | rsvp eventId userId phone =>
    obtain ⟨e1, h1, hc, hp, hq, hl⟩ :=
      rsvpHandler_event mpesaPayment env s eventId userId phone eid e h
    refine ⟨e1, h1, hc, hp, hq, ?_⟩
    rcases hl with hl | ⟨a, ha, hau, hatt, hfull⟩
    · exact Or.inl hl
    · exact Or.inr (Or.inl ⟨a, ha, by rw [hau]; exact hatt, hfull⟩)
  | cancel eventId userId =>
    obtain ⟨e1, h1, hc, hp, hq, hl⟩ := deleteRsvp_event env s eventId userId eid e h
    refine ⟨e1, h1, hc, hp, hq, ?_⟩
    rcases hl with hl | hl
    · exact Or.inl hl
    · exact Or.inr (Or.inr ⟨userId, hl⟩)

/-- The RSVP handler once both lookups have resolved and the event was
found: the two checks, then the paid or the free path. -/
theorem rsvpHandler_found (binding : Option MpesaFn) (env : Env) (s : Store)
    (eventId userId : Nat) (phone : String) (e : Event)
    (hf : env.eventFindRejects = false) (hu : env.userFindRejects = false)
    (he : s.events eventId = some e) :
    rsvpHandler binding env s eventId userId phone =
      if isAttending e userId = true then
        ⟨s, ⟨400, false, "Already attending this event", none⟩, []⟩
      else if eventIsFull e = true then
        ⟨s, ⟨400, false, "Event is full", none⟩, []⟩
      else if e.isPaid = true then
        match binding with
        | none => ⟨s, ⟨500, false, "Payment processing failed", none⟩, []⟩
        | some f =>
          saveBoth env s eventId userId
            { e with attendees := e.attendees ++
                [⟨userId, .pending, checkoutRequestID (f.call env.gateway phone e.price)⟩] }
            (fun user => { user with
              attendingEvents := user.attendingEvents ++
                [⟨eventId, .pending, checkoutRequestID (f.call env.gateway phone e.price)⟩] })
            ⟨500, false, "Payment processing failed", none⟩
            ⟨200, true, "Payment initiated. Please complete the payment on your phone.",
             checkoutRequestID (f.call env.gateway phone e.price)⟩
            [⟨f, phone, e.price⟩]
      else
        saveBoth env s eventId userId
          { e with attendees := e.attendees ++ [⟨userId, .paid, none⟩] }
          (fun user => { user with
            attendingEvents := user.attendingEvents ++ [⟨eventId, .paid, none⟩] })
          ⟨500, false, "Error processing RSVP", none⟩
          ⟨200, true, "Successfully RSVP'd to event", none⟩
          [] := by
  unfold rsvpHandler
  dsimp only
  rw [hf, hu, he]
  rfl

/-- The handler as the module runs it, once both lookups have resolved and
the event was found: the paid path always ends in the inner `catch`. -/
theorem postRsvp_found (env : Env) (s : Store) (eventId userId : Nat) (phone : String)
    (e : Event) (hf : env.eventFindRejects = false) (hu : env.userFindRejects = false)
    (he : s.events eventId = some e) :
    postRsvp env s eventId userId phone =
      if isAttending e userId = true then
        ⟨s, ⟨400, false, "Already attending this event", none⟩, []⟩
      else if eventIsFull e = true then
        ⟨s, ⟨400, false, "Event is full", none⟩, []⟩
      else if e.isPaid = true then
        ⟨s, ⟨500, false, "Payment processing failed", none⟩, []⟩
      else
        saveBoth env s eventId userId
          { e with attendees := e.attendees ++ [⟨userId, .paid, none⟩] }
          (fun user => { user with
            attendingEvents := user.attendingEvents ++ [⟨eventId, .paid, none⟩] })
          ⟨500, false, "Error processing RSVP", none⟩
          ⟨200, true, "Successfully RSVP'd to event", none⟩
          [] := by
  unfold postRsvp
  rw [rsvpHandler_found mpesaPayment env s eventId userId phone e hf hu he,
    mpesaPayment_undefined]

/-- The cancel handler once both lookups have resolved and the event was
found. -/
theorem deleteRsvp_found (env : Env) (s : Store) (eventId userId : Nat) (e : Event)
    (hf : env.eventFindRejects = false) (hu : env.userFindRejects = false)
    (he : s.events eventId = some e) :
    deleteRsvp env s eventId userId =
      saveBoth env s eventId userId
        { e with attendees := e.attendees.filter (fun attendee => !(attendee.user == userId)) }
        (fun user => { user with
          attendingEvents :=
            user.attendingEvents.filter (fun attendance => !(attendance.event == eventId)) })
        ⟨500, false, "Error cancelling RSVP", none⟩
        ⟨200, true, "Successfully cancelled RSVP", none⟩
        [] := by
  unfold deleteRsvp
  dsimp only
  rw [hf, hu, he]
  rfl

/-- The test of line 313 in terms of the ledger. -/
theorem isAttending_iff (e : Event) (userId : Nat) :
    isAttending e userId = true ↔ ∃ a ∈ e.attendees, a.user = userId := by
  unfold isAttending
  simp

/-- The test of line 322 in terms of capacity and ledger length. -/
theorem eventIsFull_iff (e : Event) :
    eventIsFull e = true ↔ e.capacity ≠ 0 ∧ (e.attendees.length : ℚ) ≥ e.capacity := by
  unfold eventIsFull
  simp

/-- The active count is at most the length of the ledger. -/
theorem activeCount_le_length (l : List Attendance) : activeCount l ≤ l.length := by
  unfold activeCount
  exact List.countP_le_length _

/-- Appending one attendance raises the active count by at most one. -/
theorem activeCount_append_one (l : List Attendance) (a : Attendance) :
    activeCount (l ++ [a]) ≤ activeCount l + 1 := by
  unfold activeCount
  rw [List.countP_append]
  have := List.countP_le_length
    (fun a : Attendance => a.paymentStatus == .pending || a.paymentStatus == .paid) (l := [a])
  simp only [List.length_singleton] at this
  omega

/-- Filtering the ledger does not raise the active count. -/
theorem activeCount_filter_le (l : List Attendance) (q : Attendance → Bool) :
    activeCount (l.filter q) ≤ activeCount l := by
  unfold activeCount
  exact (List.filter_sublist l).countP_le _

/-- A negative fullness test on an event of nonzero capacity means the
ledger is shorter than the capacity. -/
theorem length_lt_of_not_full (e : Event) (hcap : e.capacity ≠ 0)
    (h : eventIsFull e = false) : (e.attendees.length : ℚ) < e.capacity := by
  unfold eventIsFull at h
  simp only [Bool.and_eq_false_imp, bne_iff_ne, ne_eq, decide_eq_false_iff_not, ge_iff_le,
    not_le] at h
  exact h hcap

/-- One handler execution keeps `activeCount ≤ capacity` on every event whose
capacity is a positive whole number. -/
theorem handle_keeps_capacity (env : Env) (s : Store) (r : Request) (eid : Nat) (e : Event)
    (C : Nat) (h : s.events eid = some e) (hint : e.capacity = (C : ℚ)) (hpos : 0 < C)
    (hinv : (activeCount e.attendees : ℚ) ≤ e.capacity) :
    ∃ e1, (handle env s r).store.events eid = some e1 ∧ e1.capacity = e.capacity ∧
      (activeCount e1.attendees : ℚ) ≤ e1.capacity := by
  obtain ⟨e1, h1, hc, -, -, hl⟩ := handle_event env s r eid e h
  refine ⟨e1, h1, hc, ?_⟩
  rw [hc, hint]
  rw [hint] at hinv
  have hinvN : activeCount e.attendees ≤ C := by exact_mod_cast hinv
  rcases hl with hl | ⟨a, ha, -, hfull⟩ | ⟨uid, hl⟩
  · rw [hl]; exact hinv
  · rw [ha]
    have h1 := activeCount_append_one e.attendees a
    have h2 := activeCount_le_length e.attendees
    have hne : e.capacity ≠ 0 := by
      rw [hint]
      exact_mod_cast Nat.pos_iff_ne_zero.1 hpos
    have h3 := length_lt_of_not_full e hne hfull
    rw [hint] at h3
    have h3N : e.attendees.length < C := by exact_mod_cast h3
    have : activeCount (e.attendees ++ [a]) ≤ C := by omega
    exact_mod_cast this
  · rw [hl]
    have := activeCount_filter_le e.attendees (fun a => !(a.user == uid))
    have : activeCount (e.attendees.filter (fun a => !(a.user == uid))) ≤ C := by omega
    exact_mod_cast this

/-- The capacity of the fractional example is two and a half. -/
theorem twoAndAHalf_eq : twoAndAHalf = 5 / 2 := by
  unfold twoAndAHalf
  rw [Rat.mk'_eq_divInt, Rat.divInt_eq_div]
  norm_num

/-! ## C1: the capacity invariant over sequences of requests -/

/-- C1, as stated, fails in two ways. The free event of capacity `0` with an
empty ledger satisfies `activeCount ≤ capacity`, and after one RSVP
execution its ledger holds one paid attendance: `1 > 0`. The free event of
capacity two and a half with an empty ledger satisfies it too, and after the
RSVP executions of users `7`, `8` and `9` its ledger holds three paid
attendances: `3 > 5/2`. -/
theorem capacity_invariant_counterexample :
    ((storeWith zeroCapacityEvent newUser).events 1 = some zeroCapacityEvent ∧
      (0 : ℚ) ≤ zeroCapacityEvent.capacity ∧
      (activeCount zeroCapacityEvent.attendees : ℚ) ≤ zeroCapacityEvent.capacity ∧
      (runAll (storeWith zeroCapacityEvent newUser)
          [(Env.ok .authFailure, .rsvp 1 7 demoPhone)]).events 1 =
        some { zeroCapacityEvent with attendees := [⟨7, .paid, none⟩] } ∧
      ¬ ((activeCount [(⟨7, .paid, none⟩ : Attendance)] : ℚ) ≤
          zeroCapacityEvent.capacity)) ∧
    (fractionalStore.events 1 = some ⟨twoAndAHalf, some 0, false, 9, []⟩ ∧
      (0 : ℚ) ≤ twoAndAHalf ∧
      (activeCount ([] : List Attendance) : ℚ) ≤ twoAndAHalf ∧
      ledgerOf (runAll fractionalStore
          [(Env.ok .authFailure, .rsvp 1 7 demoPhone),
           (Env.ok .authFailure, .rsvp 1 8 demoPhone),
           (Env.ok .authFailure, .rsvp 1 9 demoPhone)]) 1 =
        [⟨7, .paid, none⟩, ⟨8, .paid, none⟩, ⟨9, .paid, none⟩] ∧
      ¬ ((activeCount [(⟨7, .paid, none⟩ : Attendance), ⟨8, .paid, none⟩,
          ⟨9, .paid, none⟩] : ℚ) ≤ twoAndAHalf)) := by
  decide

/-- C1, amended to events whose capacity is a whole number greater than `0`:
if the ledger of such an event satisfies `activeCount ≤ capacity`, then after
any finite sequence of RSVP and cancel executions, run one after another
under any behaviour of storage and gateway, the event is still stored with
the same capacity and its ledger still satisfies `activeCount ≤ capacity`. -/
theorem capacity_invariant_runAll (reqs : List (Env × Request)) (s : Store) (eid : Nat)
    (e : Event) (C : Nat) (h : s.events eid = some e) (hint : e.capacity = (C : ℚ))
    (hpos : 0 < C) (hinv : (activeCount e.attendees : ℚ) ≤ e.capacity) :
    ∃ e1, (runAll s reqs).events eid = some e1 ∧ e1.capacity = e.capacity ∧
      (activeCount e1.attendees : ℚ) ≤ e1.capacity := by
  induction reqs generalizing s e with
  | nil => exact ⟨e, h, rfl, hinv⟩
  | cons x rest ih =>
    obtain ⟨env, r⟩ := x
    obtain ⟨e1, h1, hc, hi⟩ := handle_keeps_capacity env s r eid e C h hint hpos hinv
    obtain ⟨e2, h2, hc2, hi2⟩ := ih (handle env s r).store e1 h1 (by rw [hc]; exact hint) hi
    exact ⟨e2, h2, by rw [hc2, hc], hi2⟩

/-- Witness of C1 amended: an event of capacity `1`, two RSVP executions by
different users and a cancel. -/
theorem capacity_invariant_runAll_witness :
    (storeWith failedOtherEvent newUser).events 1 = some failedOtherEvent ∧
    failedOtherEvent.capacity = ((1 : Nat) : ℚ) ∧
    (activeCount failedOtherEvent.attendees : ℚ) ≤ failedOtherEvent.capacity ∧
    ∃ e1, (runAll (storeWith failedOtherEvent newUser)
        [(Env.ok .authFailure, .rsvp 1 7 demoPhone),
         (Env.ok .authFailure, .cancel 1 8),
         (Env.ok .authFailure, .rsvp 1 7 demoPhone)]).events 1 = some e1 ∧
      e1.capacity = failedOtherEvent.capacity ∧
      (activeCount e1.attendees : ℚ) ≤ e1.capacity :=
  ⟨by decide, by decide, by decide,
   capacity_invariant_runAll _ (storeWith failedOtherEvent newUser) 1 failedOtherEvent 1
    (by decide) (by decide) (by decide) (by decide)⟩

/-! ## C2: when an RSVP is rejected as full -/

/-- C2, as stated, fails on both of its particular cases. For the event of
capacity `0` and user `7`, not in its ledger, `activeCount ≥ capacity` holds
and the RSVP is answered 200. For the event of capacity `1` whose only
attendance (of user `8`) has failed, `activeCount ≥ capacity` does not hold
and the RSVP of user `7` is answered 400 `Event is full`. -/
theorem full_rejection_counterexample :
    ((activeCount zeroCapacityEvent.attendees : ℚ) ≥ zeroCapacityEvent.capacity ∧
      (postRsvp (Env.ok .authFailure) (storeWith zeroCapacityEvent newUser) 1 7
          demoPhone).response =
        ⟨200, true, "Successfully RSVP'd to event", none⟩) ∧
    (¬ ((activeCount failedOtherEvent.attendees : ℚ) ≥ failedOtherEvent.capacity) ∧
      (postRsvp (Env.ok .authFailure) (storeWith failedOtherEvent newUser) 1 7
          demoPhone).response =
        ⟨400, false, "Event is full", none⟩) := by
  decide

/-- C2, amended: for every event that the handler finds and every user with
no attendance in its ledger, the RSVP is answered 400 `Event is full` exactly
when the capacity is not `0` and the number of attendances in the ledger, of
any status, is at least the capacity. -/
theorem rsvp_full_iff (env : Env) (s : Store) (eventId userId : Nat) (phone : String)
    (e : Event) (hf : env.eventFindRejects = false) (hu : env.userFindRejects = false)
    (he : s.events eventId = some e) (hnew : ∀ a ∈ e.attendees, a.user ≠ userId) :
    (postRsvp env s eventId userId phone).response = ⟨400, false, "Event is full", none⟩ ↔
      (e.capacity ≠ 0 ∧ (e.attendees.length : ℚ) ≥ e.capacity) := by
  have hnot : ¬ isAttending e userId = true := by
    rw [isAttending_iff]
    rintro ⟨a, ha, hau⟩
    exact hnew a ha hau
  rw [postRsvp_found env s eventId userId phone e hf hu he, if_neg hnot, ← eventIsFull_iff]
  by_cases hfull : eventIsFull e = true
  · simp [hfull]
  · rw [if_neg hfull]
    by_cases hp : e.isPaid = true
    · rw [if_pos hp]
      simp [hfull]
    · rw [if_neg hp, saveBoth_response]
      split_ifs <;> simp [hfull]

/-- Witness of C2 amended: capacity `1`, one failed attendance of another user. -/
theorem rsvp_full_iff_witness :
    (∀ a ∈ failedOtherEvent.attendees, a.user ≠ 7) ∧
    ((postRsvp (Env.ok .authFailure) (storeWith failedOtherEvent newUser) 1 7
        demoPhone).response = ⟨400, false, "Event is full", none⟩ ↔
      (failedOtherEvent.capacity ≠ 0 ∧
        (failedOtherEvent.attendees.length : ℚ) ≥ failedOtherEvent.capacity)) :=
  ⟨by decide,
   rsvp_full_iff (Env.ok .authFailure) (storeWith failedOtherEvent newUser) 1 7 demoPhone
    failedOtherEvent rfl rfl (by decide) (by decide)⟩

/-! ## C3: when an RSVP is rejected as a duplicate -/

/-- C3, as stated, fails: user `7`, whose only attendance in the ledger has
status failed, is answered 400 `Already attending this event`. -/
theorem duplicate_rejection_counterexample :
    (¬ ∃ a ∈ failedOwnEvent.attendees, a.user = 7 ∧ a.paymentStatus ≠ .failed) ∧
    (postRsvp (Env.ok .authFailure) (storeWith failedOwnEvent newUser) 1 7
        demoPhone).response =
      ⟨400, false, "Already attending this event", none⟩ := by
  decide

/-- C3, amended: for every event that the handler finds and every user, the
RSVP is answered 400 `Already attending this event` exactly when the ledger
holds an attendance of that user, whatever its status. -/
theorem rsvp_duplicate_iff (env : Env) (s : Store) (eventId userId : Nat) (phone : String)
    (e : Event) (hf : env.eventFindRejects = false) (hu : env.userFindRejects = false)
    (he : s.events eventId = some e) :
    (postRsvp env s eventId userId phone).response =
        ⟨400, false, "Already attending this event", none⟩ ↔
      ∃ a ∈ e.attendees, a.user = userId := by
  rw [postRsvp_found env s eventId userId phone e hf hu he, ← isAttending_iff]
  by_cases hatt : isAttending e userId = true
  · simp [hatt]
  · rw [if_neg hatt]
    by_cases hfull : eventIsFull e = true
    · simp [hfull, hatt]
    · rw [if_neg hfull]
      by_cases hp : e.isPaid = true
      · rw [if_pos hp]
        simp [hatt]
      · rw [if_neg hp, saveBoth_response]
        split_ifs <;> simp [hatt]

/-- Witness of C3 amended: the user's failed attendance makes the request a
duplicate. -/
theorem rsvp_duplicate_iff_witness :
    (postRsvp (Env.ok .authFailure) (storeWith failedOwnEvent newUser) 1 7
        demoPhone).response =
        ⟨400, false, "Already attending this event", none⟩ ↔
      ∃ a ∈ failedOwnEvent.attendees, a.user = 7 :=
  rsvp_duplicate_iff (Env.ok .authFailure) (storeWith failedOwnEvent newUser) 1 7 demoPhone
    failedOwnEvent rfl rfl (by decide)

/-! ## C4: a rejected RSVP changes nothing and calls nothing -/

/-- C4: whatever function the name `mpesaPayment` is bound to, an RSVP
answered 404 (event not found) or 400 (already attending, or full) leaves
the whole store, hence the event's ledger and the user's projection, as it
was, and makes no call to the gateway module. -/
theorem rsvp_rejected_frame (binding : Option MpesaFn) (env : Env) (s : Store)
    (eventId userId : Nat) (phone : String)
    (h : (rsvpHandler binding env s eventId userId phone).response.status = 404 ∨
         (rsvpHandler binding env s eventId userId phone).response.status = 400) :
    (rsvpHandler binding env s eventId userId phone).store = s ∧
    (rsvpHandler binding env s eventId userId phone).gatewayCalls = [] := by
  by_cases hf : env.eventFindRejects = true
  · simp [rsvpHandler, hf]
  by_cases hu : env.userFindRejects = true
  · simp [rsvpHandler, hf, hu]
  cases he : s.events eventId with
  | none => simp [rsvpHandler, hf, hu, he]
  | some e =>
    rw [rsvpHandler_found binding env s eventId userId phone e (by simpa using hf)
      (by simpa using hu) he] at h ⊢
    by_cases hatt : isAttending e userId = true
    · simp [hatt]
    rw [if_neg hatt] at h ⊢
    by_cases hfull : eventIsFull e = true
    · simp [hfull]
    rw [if_neg hfull] at h ⊢
    by_cases hp : e.isPaid = true
    · rw [if_pos hp] at h ⊢
      cases binding with
      | none => simp
      | some f =>
        exfalso
        simp only [saveBoth_response] at h
        split_ifs at h <;> simp at h
    · rw [if_neg hp] at h
      exfalso
      simp only [saveBoth_response] at h
      split_ifs at h <;> simp at h

/-- Witness of C4: the handler as the module runs it, on a full event. -/
theorem rsvp_rejected_frame_witness :
    (postRsvp (Env.ok acceptingGateway) (storeWith failedOtherEvent newUser) 1 7
        demoPhone).response.status = 400 ∧
    (postRsvp (Env.ok acceptingGateway) (storeWith failedOtherEvent newUser) 1 7
        demoPhone).store = storeWith failedOtherEvent newUser ∧
    (postRsvp (Env.ok acceptingGateway) (storeWith failedOtherEvent newUser) 1 7
        demoPhone).gatewayCalls = [] :=
  ⟨by decide,
   rsvp_rejected_frame mpesaPayment (Env.ok acceptingGateway)
    (storeWith failedOtherEvent newUser) 1 7 demoPhone (Or.inr (by decide))⟩

/-! ## C5: a successful RSVP to a free event -/

/-- C5: for a stored free event and a stored user with no attendance in its
ledger, the RSVP is answered 200 whenever the handler's fullness test is
negative and no storage operation rejects; and whenever it is answered 200,
the body says `success: true`, the stored ledger is the old one followed by
the single attendance `{user, paid}`, and the stored projection is the old
one followed by the single entry `{event, paid}`. -/
theorem rsvp_free_success (env : Env) (s : Store) (eventId userId : Nat) (phone : String)
    (e : Event) (u : User) (he : s.events eventId = some e) (hu : s.users userId = some u)
    (hfree : e.isPaid = false) (hnew : ∀ a ∈ e.attendees, a.user ≠ userId) :
    (env.storageOk → eventIsFull e = false →
      (postRsvp env s eventId userId phone).response.status = 200) ∧
    ((postRsvp env s eventId userId phone).response.status = 200 →
      (postRsvp env s eventId userId phone).response =
        ⟨200, true, "Successfully RSVP'd to event", none⟩ ∧
      (postRsvp env s eventId userId phone).store.events eventId =
        some { e with attendees := e.attendees ++ [⟨userId, .paid, none⟩] } ∧
      (postRsvp env s eventId userId phone).store.users userId =
        some { u with attendingEvents := u.attendingEvents ++ [⟨eventId, .paid, none⟩] }) := by
  have hnot : ¬ isAttending e userId = true := by
    rw [isAttending_iff]
    rintro ⟨a, ha, hau⟩
    exact hnew a ha hau
  have hpaid : ¬ e.isPaid = true := by simp [hfree]
  constructor
  · rintro ⟨h1, h2, h3, h4⟩ hfull
    rw [postRsvp_found env s eventId userId phone e h1 h2 he, if_neg hnot,
      if_neg (by simp [hfull]), if_neg hpaid, saveBoth_response]
    simp [h3, h4, hu]
  · intro h
    by_cases h1 : env.eventFindRejects = true
    · simp [postRsvp, rsvpHandler, h1] at h
    by_cases h2 : env.userFindRejects = true
    · simp [postRsvp, rsvpHandler, h1, h2] at h
    rw [postRsvp_found env s eventId userId phone e (by simpa using h1) (by simpa using h2)
      he, if_neg hnot] at h ⊢
    by_cases hfull : eventIsFull e = true
    · simp [hfull] at h
    rw [if_neg hfull, if_neg hpaid] at h ⊢
    rw [saveBoth_response] at h
    by_cases hok : env.eventSaveRejects = false ∧ env.userSaveRejects = false ∧
        (s.users userId).isSome = true
    · obtain ⟨h3, h4, -⟩ := hok
      rw [saveBoth_response, saveBoth_events, saveBoth_users]
      simp [h3, h4, hu]
    · rw [if_neg hok] at h
      simp at h

/-- Witness of C5: user `7` registers for the free event of capacity `2`. -/
theorem rsvp_free_success_witness :
    (postRsvp (Env.ok .authFailure) (storeWith freeEvent newUser) 1 7 demoPhone).response =
      ⟨200, true, "Successfully RSVP'd to event", none⟩ ∧
    (postRsvp (Env.ok .authFailure) (storeWith freeEvent newUser) 1 7 demoPhone).store.events 1 =
      some { freeEvent with attendees := freeEvent.attendees ++ [⟨7, .paid, none⟩] } ∧
    (postRsvp (Env.ok .authFailure) (storeWith freeEvent newUser) 1 7 demoPhone).store.users 7 =
      some { newUser with attendingEvents := newUser.attendingEvents ++ [⟨1, .paid, none⟩] } :=
  (rsvp_free_success (Env.ok .authFailure) (storeWith freeEvent newUser) 1 7 demoPhone
    freeEvent newUser rfl rfl rfl (by decide)).2
    ((rsvp_free_success (Env.ok .authFailure) (storeWith freeEvent newUser) 1 7 demoPhone
      freeEvent newUser rfl rfl rfl (by decide)).1 (by decide) (by decide))

/-! ## C6, C7: the paid path -/

/-- On a found paid event that passes both checks, the handler as the module
runs it answers 500 `Payment processing failed`, leaves the store as it was
and calls nothing: `mpesaPayment` is `undefined` and the call throws. -/
theorem postRsvp_paid (env : Env) (s : Store) (eventId userId : Nat) (phone : String)
    (e : Event) (hf : env.eventFindRejects = false) (hu : env.userFindRejects = false)
    (he : s.events eventId = some e) (hpaid : e.isPaid = true)
    (hatt : isAttending e userId = false) (hfull : eventIsFull e = false) :
    postRsvp env s eventId userId phone =
      ⟨s, ⟨500, false, "Payment processing failed", none⟩, []⟩ := by
  rw [postRsvp_found env s eventId userId phone e hf hu he]
  simp [hatt, hfull, hpaid]

/-- A projection entry without a ledger entry arises from the handlers
themselves: from the store in which user `7` is registered for event `1` in
both records, a cancel whose `user.save()` rejects is answered 500 and
leaves the ledger emptied and the projection as it was. -/
theorem stale_projection_reachable :
    (deleteRsvp ⟨false, false, false, true, .authFailure⟩
        (storeWith paidAttendedEvent staleUser) 1 7).response.status = 500 ∧
    (deleteRsvp ⟨false, false, false, true, .authFailure⟩
        (storeWith paidAttendedEvent staleUser) 1 7).store.events 1 = some paidEvent ∧
    (deleteRsvp ⟨false, false, false, true, .authFailure⟩
        (storeWith paidAttendedEvent staleUser) 1 7).store.users 7 = some staleUser := by
  decide

/-- C6, as stated, fails: user `7` passes the duplicate and capacity checks of
the paid event `1`, whose ledger is empty, the gateway would fail, and after
the handler has answered 500 the user's projection holds an entry for event
`1`, the one it held before. -/
theorem payment_failure_counterexample :
    isAttending paidEvent 7 = false ∧ eventIsFull paidEvent = false ∧
    Gateway.initiationFails .authFailure ∧
    (postRsvp (Env.ok .authFailure) (storeWith paidEvent staleUser) 1 7 demoPhone).response.status
      = 500 ∧
    (postRsvp (Env.ok .authFailure) (storeWith paidEvent staleUser) 1 7 demoPhone).store.users 7
      = some ⟨[], [⟨1, .paid, none⟩]⟩ := by
  refine ⟨by decide, by decide, trivial, by decide, by decide⟩

/-- C6, amended: for every found paid event and every user that passes the
duplicate and capacity checks, if the gateway would make the initiation fail,
the handler answers 500 and leaves the event's ledger and the user's
projection as they were; so the ledger holds no attendance of that user, and
the projection holds no entry for that event if it held none before. -/
theorem rsvp_payment_failure (env : Env) (s : Store) (eventId userId : Nat) (phone : String)
    (e : Event) (hf : env.eventFindRejects = false) (hu : env.userFindRejects = false)
    (he : s.events eventId = some e) (hpaid : e.isPaid = true)
    (hatt : isAttending e userId = false) (hfull : eventIsFull e = false)
    (_hgw : env.gateway.initiationFails) :
    (postRsvp env s eventId userId phone).response =
      ⟨500, false, "Payment processing failed", none⟩ ∧
    (postRsvp env s eventId userId phone).store.events eventId = some e ∧
    (postRsvp env s eventId userId phone).store.users userId = s.users userId ∧
    (∀ a ∈ e.attendees, a.user ≠ userId) ∧
    (∀ u, s.users userId = some u → (∀ r ∈ u.attendingEvents, r.event ≠ eventId) →
      ∃ u1, (postRsvp env s eventId userId phone).store.users userId = some u1 ∧
        ∀ r ∈ u1.attendingEvents, r.event ≠ eventId) := by
  rw [postRsvp_paid env s eventId userId phone e hf hu he hpaid hatt hfull]
  refine ⟨rfl, he, rfl, ?_, ?_⟩
  · intro a ha hau
    have : isAttending e userId = true := (isAttending_iff e userId).2 ⟨a, ha, hau⟩
    rw [hatt] at this
    exact Bool.false_ne_true this
  · intro u hsu hclean
    exact ⟨u, hsu, hclean⟩

/-- Witness of C6 amended: the paid event, a user registered nowhere, no
access token. -/
theorem rsvp_payment_failure_witness :
    (postRsvp (Env.ok .authFailure) (storeWith paidEvent newUser) 1 7 demoPhone).response =
      ⟨500, false, "Payment processing failed", none⟩ ∧
    (postRsvp (Env.ok .authFailure) (storeWith paidEvent newUser) 1 7 demoPhone).store.events 1 =
      some paidEvent ∧
    (postRsvp (Env.ok .authFailure) (storeWith paidEvent newUser) 1 7 demoPhone).store.users 7 =
      (storeWith paidEvent newUser).users 7 :=
  have h := rsvp_payment_failure (Env.ok .authFailure) (storeWith paidEvent newUser) 1 7
    demoPhone paidEvent rfl rfl rfl rfl (by decide) (by decide) trivial
  ⟨h.1, h.2.1, h.2.2.1⟩

/-- C7 fails on the code: the gateway would accept the initiation with
`CheckoutRequestID` `ws_CO_1`, and the handler answers 500 `Payment
processing failed`, stores no attendance and no projection entry, and never
calls the gateway. -/
theorem payment_accepted_but_rsvp_fails :
    Gateway.accepts acceptingGateway "ws_CO_1" ∧
    isAttending paidEvent 7 = false ∧ eventIsFull paidEvent = false ∧
    (postRsvp (Env.ok acceptingGateway) (storeWith paidEvent newUser) 1 7 demoPhone).response =
      ⟨500, false, "Payment processing failed", none⟩ ∧
    (postRsvp (Env.ok acceptingGateway) (storeWith paidEvent newUser) 1 7 demoPhone).store.events 1
      = some paidEvent ∧
    (postRsvp (Env.ok acceptingGateway) (storeWith paidEvent newUser) 1 7 demoPhone).store.users 7
      = some newUser ∧
    (postRsvp (Env.ok acceptingGateway) (storeWith paidEvent newUser) 1 7 demoPhone).gatewayCalls
      = [] := by
  refine ⟨⟨_, rfl, by decide, by decide⟩, by decide, by decide, by decide, by decide,
    by decide, by decide⟩

/-- The object `initiateSTKPush` resolves to has no own property
`CheckoutRequestID` (on success the id sits under `data`), so the handler
would read `undefined` from it. -/
theorem checkoutRequestID_initiateSTKPush (gw : Gateway) (phone : String) (amount : ℚ) :
    checkoutRequestID (initiateSTKPush gw phone amount) = none := by
  cases gw with
  | authFailure =>
    simp [checkoutRequestID, initiateSTKPush, stkFailure, JSObject.prop, List.lookup]
  | networkFailure error =>
    simp [checkoutRequestID, initiateSTKPush, stkFailure, JSObject.prop, List.lookup]
  | answer d =>
    unfold initiateSTKPush
    dsimp only
    split_ifs <;>
      simp [checkoutRequestID, stkFailure, JSObject.prop, List.lookup]

/-- Had line 9 imported `initiateSTKPush`, a failed initiation would still be
answered 200 with a pending attendance stored: the gateway function reports
failure in its return value and the handler does not look at it. -/
theorem rsvpHandler_initiateSTKPush_on_failure :
    (rsvpHandler (some .initiateSTKPush) (Env.ok .authFailure) (storeWith paidEvent newUser)
        1 7 demoPhone).response.status = 200 ∧
    (rsvpHandler (some .initiateSTKPush) (Env.ok .authFailure) (storeWith paidEvent newUser)
        1 7 demoPhone).store.events 1 =
      some { paidEvent with attendees := [⟨7, .pending, none⟩] } := by
  decide

/-! ## C8: a successful cancel removes the registration from both records -/

/-- C8: for a stored event and a stored user, the cancel is answered 200
whenever no storage operation rejects; and whenever it is answered 200, the
stored ledger holds no attendance of that user, of any status, and the
stored projection holds no entry for that event. -/
theorem cancel_removes (env : Env) (s : Store) (eventId userId : Nat)
    (e : Event) (u : User) (he : s.events eventId = some e) (hu : s.users userId = some u) :
    (env.storageOk → (deleteRsvp env s eventId userId).response.status = 200) ∧
    ((deleteRsvp env s eventId userId).response.status = 200 →
      (∃ e1, (deleteRsvp env s eventId userId).store.events eventId = some e1 ∧
        ∀ a ∈ e1.attendees, a.user ≠ userId) ∧
      (∃ u1, (deleteRsvp env s eventId userId).store.users userId = some u1 ∧
        ∀ r ∈ u1.attendingEvents, r.event ≠ eventId)) := by
  constructor
  · rintro ⟨h1, h2, h3, h4⟩
    rw [deleteRsvp_found env s eventId userId e h1 h2 he, saveBoth_response]
    simp [h3, h4, hu]
  · intro h
    by_cases h1 : env.eventFindRejects = true
    · simp [deleteRsvp, h1] at h
    by_cases h2 : env.userFindRejects = true
    · simp [deleteRsvp, h1, h2] at h
    rw [deleteRsvp_found env s eventId userId e (by simpa using h1) (by simpa using h2)
      he] at h ⊢
    rw [saveBoth_response] at h
    by_cases hok : env.eventSaveRejects = false ∧ env.userSaveRejects = false ∧
        (s.users userId).isSome = true
    · obtain ⟨h3, h4, -⟩ := hok
      rw [saveBoth_events, saveBoth_users]
      simp [h3, h4, hu]
    · rw [if_neg hok] at h
      simp at h

/-- Witness of C8: user `7`, whose attendance is paid, cancels. -/
theorem cancel_removes_witness :
    (deleteRsvp (Env.ok .authFailure) (storeWith attendedEvent staleUser) 1 7).response.status
      = 200 ∧
    (∃ e1, (deleteRsvp (Env.ok .authFailure) (storeWith attendedEvent staleUser) 1 7).store.events
        1 = some e1 ∧ ∀ a ∈ e1.attendees, a.user ≠ 7) ∧
    (∃ u1, (deleteRsvp (Env.ok .authFailure) (storeWith attendedEvent staleUser) 1 7).store.users
        7 = some u1 ∧ ∀ r ∈ u1.attendingEvents, r.event ≠ 1) :=
  ⟨by decide,
   (cancel_removes (Env.ok .authFailure) (storeWith attendedEvent staleUser) 1 7
      attendedEvent staleUser rfl rfl).2 (by decide)⟩

/-! ## C9: cancel is idempotent -/

/-- Filtering out what is not there changes nothing. -/
theorem filter_absent {α : Type} (l : List α) (q : α → Bool) (h : ∀ a ∈ l, q a = true) :
    l.filter q = l :=
  List.filter_eq_self.2 h

/-- C9, as stated, fails: the ledger of event `1` holds no attendance of user
`7`, whose projection holds an entry for the event (the state that a cancel
with a rejected `user.save()` leaves); the cancel of user `7` is answered
200 and removes that entry, so the projection is not as it was. -/
theorem cancel_stale_counterexample :
    (∀ a ∈ paidEvent.attendees, a.user ≠ 7) ∧
    (storeWith paidEvent staleUser).users 7 = some ⟨[], [⟨1, .paid, none⟩]⟩ ∧
    (deleteRsvp (Env.ok .authFailure) (storeWith paidEvent staleUser) 1 7).response =
      ⟨200, true, "Successfully cancelled RSVP", none⟩ ∧
    (deleteRsvp (Env.ok .authFailure) (storeWith paidEvent staleUser) 1 7).store.users 7 =
      some ⟨[], []⟩ ∧
    (deleteRsvp (Env.ok .authFailure) (storeWith paidEvent staleUser) 1 7).store.events 1 =
      some paidEvent := by
  decide

/-- C9, amended: for a stored event and a stored user, with no storage
operation rejecting. If the ledger holds no attendance of the user and the
projection holds no entry for the event, the cancel is answered 200 with
`success: true` and the ledger and the projection stay as they were. And in
every case a second cancel after the first is answered 200 with
`success: true` and leaves the ledger and the projection as the first one
left them. -/
theorem cancel_idempotent (env env2 : Env) (s : Store) (eventId userId : Nat)
    (e : Event) (u : User) (hok : env.storageOk) (hok2 : env2.storageOk)
    (he : s.events eventId = some e) (hu : s.users userId = some u) :
    ((∀ a ∈ e.attendees, a.user ≠ userId) → (∀ r ∈ u.attendingEvents, r.event ≠ eventId) →
      (deleteRsvp env s eventId userId).response =
        ⟨200, true, "Successfully cancelled RSVP", none⟩ ∧
      (deleteRsvp env s eventId userId).store.events eventId = some e ∧
      (deleteRsvp env s eventId userId).store.users userId = some u) ∧
    ((deleteRsvp env2 (deleteRsvp env s eventId userId).store eventId userId).response =
        ⟨200, true, "Successfully cancelled RSVP", none⟩ ∧
      (deleteRsvp env2 (deleteRsvp env s eventId userId).store eventId userId).store.events
          eventId =
        (deleteRsvp env s eventId userId).store.events eventId ∧
      (deleteRsvp env2 (deleteRsvp env s eventId userId).store eventId userId).store.users
          userId =
        (deleteRsvp env s eventId userId).store.users userId) := by
  obtain ⟨h1, h2, h3, h4⟩ := hok
  obtain ⟨k1, k2, k3, k4⟩ := hok2
  have first := deleteRsvp_found env s eventId userId e h1 h2 he
  have hev1 : (deleteRsvp env s eventId userId).store.events eventId =
      some { e with attendees := e.attendees.filter (fun a => !(a.user == userId)) } := by
    rw [first, saveBoth_events]; simp [h3]
  have hus1 : (deleteRsvp env s eventId userId).store.users userId =
      some { u with attendingEvents :=
        u.attendingEvents.filter (fun r => !(r.event == eventId)) } := by
    rw [first, saveBoth_users]; simp [h3, h4, hu]
  constructor
  · intro hl hp
    refine ⟨?_, ?_, ?_⟩
    · rw [first, saveBoth_response]; simp [h3, h4, hu]
    · rw [hev1, filter_absent e.attendees _ (fun a ha => by simpa using hl a ha)]
    · rw [hus1, filter_absent u.attendingEvents _ (fun r hr => by simpa using hp r hr)]
  · have second := deleteRsvp_found env2 (deleteRsvp env s eventId userId).store eventId userId
      _ k1 k2 hev1
    refine ⟨?_, ?_, ?_⟩
    · rw [second, saveBoth_response]; simp [k3, k4, hus1]
    · rw [second, saveBoth_events, hev1]; simp [k3]
    · rw [second, saveBoth_users, hus1]; simp [k3, k4]

/-- Witness of C9 amended: user `7`, registered nowhere, cancels and nothing
changes; user `7`, registered in both records, cancels twice. -/
theorem cancel_idempotent_witness :
    ((∀ a ∈ failedOtherEvent.attendees, a.user ≠ 7) ∧
      (∀ r ∈ newUser.attendingEvents, r.event ≠ 1) ∧
      (deleteRsvp (Env.ok .authFailure) (storeWith failedOtherEvent newUser) 1 7).response =
        ⟨200, true, "Successfully cancelled RSVP", none⟩ ∧
      (deleteRsvp (Env.ok .authFailure) (storeWith failedOtherEvent newUser) 1 7).store.events
        1 = some failedOtherEvent ∧
      (deleteRsvp (Env.ok .authFailure) (storeWith failedOtherEvent newUser) 1 7).store.users
        7 = some newUser) ∧
    (deleteRsvp (Env.ok .authFailure)
        (deleteRsvp (Env.ok .authFailure) (storeWith attendedEvent staleUser) 1 7).store
        1 7).response = ⟨200, true, "Successfully cancelled RSVP", none⟩ ∧
    (deleteRsvp (Env.ok .authFailure)
        (deleteRsvp (Env.ok .authFailure) (storeWith attendedEvent staleUser) 1 7).store
        1 7).store.events 1 =
      (deleteRsvp (Env.ok .authFailure) (storeWith attendedEvent staleUser) 1 7).store.events 1 ∧
    (deleteRsvp (Env.ok .authFailure)
        (deleteRsvp (Env.ok .authFailure) (storeWith attendedEvent staleUser) 1 7).store
        1 7).store.users 7 =
      (deleteRsvp (Env.ok .authFailure) (storeWith attendedEvent staleUser) 1 7).store.users 7 :=
  ⟨⟨by decide, by decide,
    (cancel_idempotent (Env.ok .authFailure) (Env.ok .authFailure)
      (storeWith failedOtherEvent newUser) 1 7 failedOtherEvent newUser
      (by decide) (by decide) rfl rfl).1 (by decide) (by decide)⟩,
   (cancel_idempotent (Env.ok .authFailure) (Env.ok .authFailure)
    (storeWith attendedEvent staleUser) 1 7 attendedEvent staleUser
    (by decide) (by decide) rfl rfl).2⟩

/-! ## C10: uniqueness by user -/

/-- C10: if no two attendances in the ledger of a stored event refer to the
same user, then after any single RSVP or cancel execution, under any
behaviour of storage and gateway, the event is still stored and no two
attendances in its ledger refer to the same user. -/
theorem handle_keeps_unique (env : Env) (s : Store) (r : Request) (eid : Nat) (e : Event)
    (h : s.events eid = some e) (huniq : UniqueByUser e.attendees) :
    ∃ e1, (handle env s r).store.events eid = some e1 ∧ UniqueByUser e1.attendees := by
  obtain ⟨e1, h1, -, -, -, hl⟩ := handle_event env s r eid e h
  refine ⟨e1, h1, ?_⟩
  unfold UniqueByUser at huniq ⊢
  rcases hl with hl | ⟨a, ha, hatt, -⟩ | ⟨uid, hl⟩
  · rw [hl]; exact huniq
  · rw [ha, List.map_append, List.map_singleton]
    have hnot : a.user ∉ e.attendees.map (fun a => a.user) := by
      intro hmem
      obtain ⟨b, hb, hbu⟩ := List.mem_map.1 hmem
      have : isAttending e a.user = true := (isAttending_iff e a.user).2 ⟨b, hb, hbu⟩
      rw [hatt] at this
      exact Bool.false_ne_true this
    exact List.Nodup.append huniq (List.nodup_singleton _)
      (by
        intro x hx hx1
        rw [List.mem_singleton] at hx1
        subst hx1
        exact hnot hx)
  · rw [hl]
    exact (List.Sublist.map _ (List.filter_sublist e.attendees)).nodup huniq

/-- Witness of C10: user `9` registers for the event attended by `7` and `8`. -/
theorem handle_keeps_unique_witness :
    UniqueByUser attendedEvent.attendees ∧
    ∃ e1, (handle (Env.ok .authFailure) (storeWith attendedEvent newUser)
        (.rsvp 1 9 demoPhone)).store.events 1 = some e1 ∧ UniqueByUser e1.attendees :=
  ⟨by unfold UniqueByUser; decide,
   handle_keeps_unique (Env.ok .authFailure) (storeWith attendedEvent newUser)
    (.rsvp 1 9 demoPhone) 1 attendedEvent rfl (by unfold UniqueByUser; decide)⟩

/-! ## C11: the mirror relation between ledger and projection -/

/-- An RSVP answered 200 has found the event and the user and has stored a
new attendance and a new projection entry with one status and reference. -/
theorem rsvpHandler_success (binding : Option MpesaFn) (env : Env) (s : Store)
    (eventId userId : Nat) (phone : String)
    (h : (rsvpHandler binding env s eventId userId phone).response.status = 200) :
    ∃ e u st ref, s.events eventId = some e ∧ s.users userId = some u ∧
      (rsvpHandler binding env s eventId userId phone).store =
        (s.saveEvent eventId
          { e with attendees := e.attendees ++ [⟨userId, st, ref⟩] }).saveUser userId
          { u with attendingEvents := u.attendingEvents ++ [⟨eventId, st, ref⟩] } := by
  by_cases hf : env.eventFindRejects = true
  · simp [rsvpHandler, hf] at h
  by_cases hu : env.userFindRejects = true
  · simp [rsvpHandler, hf, hu] at h
  cases he : s.events eventId with
  | none => simp [rsvpHandler, hf, hu, he] at h
  | some e =>
    rw [rsvpHandler_found binding env s eventId userId phone e (by simpa using hf)
      (by simpa using hu) he] at h ⊢
    by_cases hatt : isAttending e userId = true
    · simp [hatt] at h
    rw [if_neg hatt] at h ⊢
    by_cases hfull : eventIsFull e = true
    · simp [hfull] at h
    rw [if_neg hfull] at h ⊢
    have tail : ∀ (st : PaymentStatus) (ref : Option String) (onError onSuccess : Response)
        (calls : List GatewayCall), onError.status = 500 →
        (saveBoth env s eventId userId
          { e with attendees := e.attendees ++ [⟨userId, st, ref⟩] }
          (fun user => { user with
            attendingEvents := user.attendingEvents ++ [⟨eventId, st, ref⟩] })
          onError onSuccess calls).response.status = 200 →
        ∃ e1 u st1 ref1, some e = some e1 ∧ s.users userId = some u ∧
          (saveBoth env s eventId userId
            { e with attendees := e.attendees ++ [⟨userId, st, ref⟩] }
            (fun user => { user with
              attendingEvents := user.attendingEvents ++ [⟨eventId, st, ref⟩] })
            onError onSuccess calls).store =
          (s.saveEvent eventId
            { e1 with attendees := e1.attendees ++ [⟨userId, st1, ref1⟩] }).saveUser userId
            { u with attendingEvents := u.attendingEvents ++ [⟨eventId, st1, ref1⟩] } := by
      intro st ref onError onSuccess calls herr hs
      unfold saveBoth at hs ⊢
      by_cases h1 : env.eventSaveRejects = true
      · simp [h1, herr] at hs
      cases hus : s.users userId with
      | none => simp [h1, hus, herr] at hs
      | some u =>
        by_cases h2 : env.userSaveRejects = true
        · simp [h1, hus, h2, herr] at hs
        · exact ⟨e, u, st, ref, rfl, rfl, by simp [h1, h2]⟩
    by_cases hp : e.isPaid = true
    · rw [if_pos hp] at h ⊢
      cases binding with
      | none => simp at h
      | some f => exact tail _ _ _ _ _ rfl h
    · rw [if_neg hp] at h ⊢
      exact tail _ _ _ _ _ rfl h

/-- A cancel answered 200 has found the event and the user and has stored the
filtered ledger and the filtered projection. -/
theorem deleteRsvp_success (env : Env) (s : Store) (eventId userId : Nat)
    (h : (deleteRsvp env s eventId userId).response.status = 200) :
    ∃ e u, s.events eventId = some e ∧ s.users userId = some u ∧
      (deleteRsvp env s eventId userId).store =
        (s.saveEvent eventId
          { e with attendees := e.attendees.filter (fun a => !(a.user == userId)) }).saveUser
          userId
          { u with attendingEvents :=
              u.attendingEvents.filter (fun r => !(r.event == eventId)) } := by
  by_cases hf : env.eventFindRejects = true
  · simp [deleteRsvp, hf] at h
  by_cases hu : env.userFindRejects = true
  · simp [deleteRsvp, hf, hu] at h
  cases he : s.events eventId with
  | none => simp [deleteRsvp, hf, hu, he] at h
  | some e =>
    rw [deleteRsvp_found env s eventId userId e (by simpa using hf) (by simpa using hu)
      he] at h ⊢
    unfold saveBoth at h ⊢
    by_cases h1 : env.eventSaveRejects = true
    · simp [h1] at h
    cases hus : s.users userId with
    | none => simp [h1, hus] at h
    | some u =>
      by_cases h2 : env.userSaveRejects = true
      · simp [h1, hus, h2] at h
      · exact ⟨e, u, rfl, rfl, by simp [h1, h2]⟩

/-- A deletion that flashes `success` has found the event and has run all
three writes. -/
theorem deleteEvent_success (env : DeleteEnv) (s : Store) (eventId userId : Nat)
    (h : (deleteEvent env s eventId userId).response.kind = "success") :
    ∃ e, s.events eventId = some e ∧
      (deleteEvent env s eventId userId).store =
        ((s.pullCreated e.creator eventId).pullAttending eventId).removeEvent eventId := by
  unfold deleteEvent at h ⊢
  by_cases hf : env.eventFindRejects = true
  · simp [hf] at h
  cases he : s.events eventId with
  | none => simp [hf, he] at h
  | some e =>
    refine ⟨e, rfl, ?_⟩
    by_cases hc : (!(e.creator == userId)) = true
    · simp [hf, he, hc] at h
    by_cases h1 : env.imageRemovalThrows = true
    · simp [hf, he, hc, h1] at h
    by_cases h2 : env.creatorUpdateRejects = true
    · simp [hf, he, hc, h1, h2] at h
    by_cases h3 : env.attendeesUpdateRejects = true
    · simp [hf, he, hc, h1, h2, h3] at h
    by_cases h4 : env.eventDeleteRejects = true
    · simp [hf, he, hc, h1, h2, h3, h4] at h
    simp [hf, hc, h1, h2, h3, h4]

/-- The ledger of any event after both documents were saved. -/
theorem ledgerOf_saved (s : Store) (eventId userId : Nat) (e1 : Event) (u1 : User)
    (M : Nat) :
    ledgerOf ((s.saveEvent eventId e1).saveUser userId u1) M =
      if M = eventId then e1.attendees else ledgerOf s M := by
  unfold ledgerOf Store.saveUser Store.saveEvent
  by_cases h : M = eventId <;> simp [h]

/-- The projection of any user after both documents were saved. -/
theorem projectionOf_saved (s : Store) (eventId userId : Nat) (e1 : Event) (u1 : User)
    (v : Nat) :
    projectionOf ((s.saveEvent eventId e1).saveUser userId u1) v =
      if v = userId then u1.attendingEvents else projectionOf s v := by
  unfold projectionOf Store.saveUser Store.saveEvent
  by_cases h : v = userId <;> simp [h]

/-- Appending the same registration to the ledger of an event and to the
projection of a user keeps the mirror relation of every event. -/
theorem mirror_after_append (s : Store) (eventId userId : Nat) (e : Event) (u : User)
    (st : PaymentStatus) (ref : Option String) (M : Nat)
    (he : s.events eventId = some e) (hu : s.users userId = some u) (h : Mirror s M) :
    Mirror ((s.saveEvent eventId
        { e with attendees := e.attendees ++ [⟨userId, st, ref⟩] }).saveUser userId
        { u with attendingEvents := u.attendingEvents ++ [⟨eventId, st, ref⟩] }) M := by
  intro v st1 ref1
  have hl : ledgerOf s eventId = e.attendees := by simp [ledgerOf, he]
  have hp : projectionOf s userId = u.attendingEvents := by simp [projectionOf, hu]
  have hm := h v st1 ref1
  rw [ledgerOf_saved, projectionOf_saved]
  by_cases hM : M = eventId <;> by_cases hv : v = userId
  · subst hM; subst hv
    rw [hl, hp] at hm
    simp [hm]
  · subst hM
    rw [hl] at hm
    simp [hv, hm]
  · subst hv
    rw [hp] at hm
    simp [hM, hm]
  · simp [hM, hv, hm]

/-- Filtering a user out of the ledger of an event and the event out of the
projection of the user keeps the mirror relation of every event. -/
theorem mirror_after_filter (s : Store) (eventId userId : Nat) (e : Event) (u : User)
    (M : Nat) (he : s.events eventId = some e) (hu : s.users userId = some u)
    (h : Mirror s M) :
    Mirror ((s.saveEvent eventId
        { e with attendees := e.attendees.filter (fun a => !(a.user == userId)) }).saveUser
        userId
        { u with attendingEvents :=
            u.attendingEvents.filter (fun r => !(r.event == eventId)) }) M := by
  intro v st1 ref1
  have hl : ledgerOf s eventId = e.attendees := by simp [ledgerOf, he]
  have hp : projectionOf s userId = u.attendingEvents := by simp [projectionOf, hu]
  have hm := h v st1 ref1
  rw [ledgerOf_saved, projectionOf_saved]
  by_cases hM : M = eventId <;> by_cases hv : v = userId
  · subst hM; subst hv
    simp
  · subst hM
    rw [hl] at hm
    simp [hv, hm]
  · subst hv
    rw [hp] at hm
    simp [hM, hm]
  · simp [hM, hv, hm]

/-- The ledger of any event after the three writes of a deletion. -/
theorem ledgerOf_deleted (s : Store) (creator eventId M : Nat) :
    ledgerOf (((s.pullCreated creator eventId).pullAttending eventId).removeEvent eventId) M =
      if M = eventId then [] else ledgerOf s M := by
  unfold ledgerOf Store.removeEvent Store.pullAttending Store.pullCreated
  by_cases h : M = eventId <;> simp [h]

/-- The projection of any user after the three writes of a deletion. -/
theorem projectionOf_deleted (s : Store) (creator eventId v : Nat) :
    projectionOf (((s.pullCreated creator eventId).pullAttending eventId).removeEvent eventId)
        v =
      (projectionOf s v).filter (fun r => !(r.event == eventId)) := by
  unfold projectionOf Store.removeEvent Store.pullAttending Store.pullCreated
  by_cases h : v = creator <;> cases hs : s.users v <;> simp [h, hs] <;> simp_all

/-- C11: if the ledger of an event `M` and the projections of all users
mirror each other (an attendance of user `u` with a status and reference is
in the ledger exactly when an entry for `M` with that status and reference
is in the projection of `u`), they still do after every RSVP answered 200,
every cancel answered 200 and every event deletion that reports success,
whichever event the request addresses; and after such a deletion no
projection holds an entry for the deleted event. -/
theorem mirror_preserved (env : Env) (denv : DeleteEnv) (s : Store)
    (eventId userId : Nat) (phone : String) (M : Nat) (h : Mirror s M) :
    ((postRsvp env s eventId userId phone).response.status = 200 →
      Mirror (postRsvp env s eventId userId phone).store M) ∧
    ((deleteRsvp env s eventId userId).response.status = 200 →
      Mirror (deleteRsvp env s eventId userId).store M) ∧
    ((deleteEvent denv s eventId userId).response.kind = "success" →
      Mirror (deleteEvent denv s eventId userId).store M ∧
      ∀ v, ∀ r ∈ projectionOf (deleteEvent denv s eventId userId).store v,
        r.event ≠ eventId) := by
  refine ⟨?_, ?_, ?_⟩
  · intro hs
    obtain ⟨e, u, st, ref, he, hu, hstore⟩ :=
      rsvpHandler_success mpesaPayment env s eventId userId phone hs
    unfold postRsvp
    rw [hstore]
    exact mirror_after_append s eventId userId e u st ref M he hu h
  · intro hs
    obtain ⟨e, u, he, hu, hstore⟩ := deleteRsvp_success env s eventId userId hs
    rw [hstore]
    exact mirror_after_filter s eventId userId e u M he hu h
  · intro hs
    obtain ⟨e, -, hstore⟩ := deleteEvent_success denv s eventId userId hs
    rw [hstore]
    constructor
    · intro v st1 ref1
      have hm := h v st1 ref1
      rw [ledgerOf_deleted, projectionOf_deleted]
      by_cases hM : M = eventId
      · subst hM
        simp
      · simp [hM, hm]
    · intro v r hr
      rw [projectionOf_deleted] at hr
      simpa using (List.mem_filter.1 hr).2

/-- The example store satisfies the mirror relation for event `1`. -/
theorem mirroredStore_mirror : Mirror mirroredStore 1 := by
  intro v st ref
  unfold ledgerOf projectionOf mirroredStore
  by_cases h7 : v = 7
  · subst h7
    simp
  by_cases h8 : v = 8
  · subst h8
    simp
  by_cases h9 : v = 9
  · subst h9
    simp
  simp [h7, h8, h9]

/-- Witness of C11: on the example store, user `9` registers for event `1`,
or cancels, or (being its creator) deletes the event; each request
succeeds. -/
theorem mirror_preserved_witness :
    ((postRsvp (Env.ok .authFailure) mirroredStore 1 9 demoPhone).response.status = 200 ∧
      (deleteRsvp (Env.ok .authFailure) mirroredStore 1 9).response.status = 200 ∧
      (deleteEvent DeleteEnv.ok mirroredStore 1 9).response.kind = "success") ∧
    (((postRsvp (Env.ok .authFailure) mirroredStore 1 9 demoPhone).response.status = 200 →
      Mirror (postRsvp (Env.ok .authFailure) mirroredStore 1 9 demoPhone).store 1) ∧
    ((deleteRsvp (Env.ok .authFailure) mirroredStore 1 9).response.status = 200 →
      Mirror (deleteRsvp (Env.ok .authFailure) mirroredStore 1 9).store 1) ∧
    ((deleteEvent DeleteEnv.ok mirroredStore 1 9).response.kind = "success" →
      Mirror (deleteEvent DeleteEnv.ok mirroredStore 1 9).store 1 ∧
      ∀ v, ∀ r ∈ projectionOf (deleteEvent DeleteEnv.ok mirroredStore 1 9).store v,
        r.event ≠ 1)) :=
  ⟨⟨by decide, by decide, by decide⟩,
   mirror_preserved (Env.ok .authFailure) DeleteEnv.ok mirroredStore 1 9 demoPhone 1
    mirroredStore_mirror⟩

/-! ## C12: the user write fails after the event write -/

/-- C12, as stated, fails: user `7` registers for the free event of capacity
`2`, `event.save()` resolves and `user.save()` rejects. The request is
answered 500, the stored ledger has changed (it holds the new attendance),
the projection is as before, and the store, which has no other collection,
is the old one with the event document replaced. -/
theorem partial_write_counterexample :
    (postRsvp ⟨false, false, false, true, .authFailure⟩ (storeWith freeEvent newUser) 1 7
        demoPhone).response.status = 500 ∧
    (postRsvp ⟨false, false, false, true, .authFailure⟩ (storeWith freeEvent newUser) 1 7
        demoPhone).store.events 1 = some { freeEvent with attendees := [⟨7, .paid, none⟩] } ∧
    ([(⟨7, .paid, none⟩ : Attendance)] ≠ freeEvent.attendees) ∧
    (postRsvp ⟨false, false, false, true, .authFailure⟩ (storeWith freeEvent newUser) 1 7
        demoPhone).store.users 7 = some newUser := by
  decide

/-- C12, amended: when both lookups resolve, `event.save()` resolves and
`user.save()` rejects, the request is answered 500 and the store is left as
the first write made it. For an RSVP that passes both checks on a free
event: the old store with the event document replaced by the one whose
ledger ends in the new attendance. For a cancel: the old store with the
event document replaced by the one whose ledger has lost the user's
attendances. The user documents are as before and nothing else is
recorded. -/
theorem partial_write_kept (env : Env) (s : Store) (eventId userId : Nat) (phone : String)
    (e : Event) (u : User) (hf : env.eventFindRejects = false)
    (hu : env.userFindRejects = false) (he : s.events eventId = some e)
    (hus : s.users userId = some u) (h1 : env.eventSaveRejects = false)
    (h2 : env.userSaveRejects = true) :
    (isAttending e userId = false → eventIsFull e = false → e.isPaid = false →
      (postRsvp env s eventId userId phone).response =
        ⟨500, false, "Error processing RSVP", none⟩ ∧
      (postRsvp env s eventId userId phone).store =
        s.saveEvent eventId { e with attendees := e.attendees ++ [⟨userId, .paid, none⟩] }) ∧
    ((deleteRsvp env s eventId userId).response =
        ⟨500, false, "Error cancelling RSVP", none⟩ ∧
      (deleteRsvp env s eventId userId).store =
        s.saveEvent eventId
          { e with attendees := e.attendees.filter (fun a => !(a.user == userId)) }) := by
  constructor
  · intro hatt hfull hfree
    rw [postRsvp_found env s eventId userId phone e hf hu he]
    simp [hatt, hfull, hfree, saveBoth, h1, h2, hus]
  · rw [deleteRsvp_found env s eventId userId e hf hu he]
    simp [saveBoth, h1, h2, hus]

/-- Witness of C12 amended: the RSVP of the counterexample and a cancel under
the same environment. -/
theorem partial_write_kept_witness :
    (postRsvp ⟨false, false, false, true, .authFailure⟩ (storeWith freeEvent newUser) 1 7
        demoPhone).store =
      (storeWith freeEvent newUser).saveEvent 1
        { freeEvent with attendees := freeEvent.attendees ++ [⟨7, .paid, none⟩] } ∧
    (deleteRsvp ⟨false, false, false, true, .authFailure⟩ (storeWith freeEvent newUser) 1
        7).response = ⟨500, false, "Error cancelling RSVP", none⟩ :=
  have h := partial_write_kept ⟨false, false, false, true, .authFailure⟩
    (storeWith freeEvent newUser) 1 7 demoPhone freeEvent newUser rfl rfl rfl rfl rfl rfl
  ⟨(h.1 (by decide) (by decide) rfl).2, h.2.1⟩

/-! ## C13: a handler execution changes no status -/

/-- C13: after any single RSVP or cancel execution, under any behaviour of
storage and gateway, every attendance in the stored ledger of an event whose
user had an attendance there before is one of the attendances that were
there before, unchanged; so, the ledger being unique by user, an attendance
of a user before and an attendance of the same user after have the same
status: none goes back to pending, and no paid one becomes failed. -/
theorem handle_keeps_status (env : Env) (s : Store) (r : Request) (eid : Nat) (e : Event)
    (h : s.events eid = some e) :
    ∃ e1, (handle env s r).store.events eid = some e1 ∧
      (∀ b ∈ e1.attendees, (∃ a ∈ e.attendees, a.user = b.user) → b ∈ e.attendees) ∧
      (UniqueByUser e.attendees → ∀ a ∈ e.attendees, ∀ b ∈ e1.attendees,
        a.user = b.user → b.paymentStatus = a.paymentStatus) := by
  obtain ⟨e1, h1, -, -, -, hl⟩ := handle_event env s r eid e h
  have same : ∀ b ∈ e1.attendees, (∃ a ∈ e.attendees, a.user = b.user) → b ∈ e.attendees := by
    intro b hb hex
    rcases hl with hl | ⟨a, ha, hatt, -⟩ | ⟨uid, hl⟩
    · rw [hl] at hb; exact hb
    · rw [ha, List.mem_append, List.mem_singleton] at hb
      rcases hb with hb | hb
      · exact hb
      · subst hb
        have : isAttending e b.user = true := (isAttending_iff e b.user).2 hex
        rw [hatt] at this
        exact absurd this Bool.false_ne_true
    · rw [hl] at hb
      exact (List.mem_filter.1 hb).1
  refine ⟨e1, h1, same, ?_⟩
  intro huniq a ha b hb hab
  have hb1 : b ∈ e.attendees := same b hb ⟨a, ha, hab⟩
  have : a = b := List.inj_on_of_nodup_map huniq ha hb1 hab
  rw [this]

/-- Witness of C13: user `9` registers for the event attended by `7` (paid)
and `8` (pending). -/
theorem handle_keeps_status_witness :
    ∃ e1, (handle (Env.ok .authFailure) (storeWith attendedEvent newUser)
        (.rsvp 1 9 demoPhone)).store.events 1 = some e1 ∧
      (∀ b ∈ e1.attendees, (∃ a ∈ attendedEvent.attendees, a.user = b.user) →
        b ∈ attendedEvent.attendees) ∧
      (UniqueByUser attendedEvent.attendees → ∀ a ∈ attendedEvent.attendees,
        ∀ b ∈ e1.attendees, a.user = b.user → b.paymentStatus = a.paymentStatus) :=
  handle_keeps_status (Env.ok .authFailure) (storeWith attendedEvent newUser)
    (.rsvp 1 9 demoPhone) 1 attendedEvent rfl

/-! ## C14, C15, C16: phone normalization -/

/-- Removing the non-digits of a string of digits changes nothing. -/
theorem removeNonDigits_of_digits (s : String) (h : ∀ c ∈ s.data, c.isDigit = true) :
    removeNonDigits s = s := by
  unfold removeNonDigits
  rw [List.filter_eq_self.2 h]

/-- What is left after removing the non-digits consists of digits. -/
theorem removeNonDigits_digits (s : String) :
    ∀ c ∈ (removeNonDigits s).data, c.isDigit = true := by
  intro c hc
  unfold removeNonDigits at hc
  exact (List.mem_filter.1 hc).2

/-- A leading `0` is removed. -/
theorem removeLeadingCode_zero (x : String) : removeLeadingCode ("0" ++ x) = x := by
  unfold removeLeadingCode
  have : ("0" ++ x).data = '0' :: x.data := by
    rw [String.data_append]; rfl
  rw [this]
  rfl

/-- A leading `254` is removed. -/
theorem removeLeadingCode_254 (x : String) : removeLeadingCode ("254" ++ x) = x := by
  unfold removeLeadingCode
  have : ("254" ++ x).data = '2' :: '5' :: '4' :: x.data := by
    rw [String.data_append]; rfl
  rw [this]
  rfl

/-- Removing the leading code leaves a string of digits a string of digits. -/
theorem removeLeadingCode_digits (s : String) (h : ∀ c ∈ s.data, c.isDigit = true) :
    ∀ c ∈ (removeLeadingCode s).data, c.isDigit = true := by
  unfold removeLeadingCode
  split
  · rename_i rest heq
    intro c hc
    exact h c (by rw [heq]; simp [hc])
  · rename_i rest heq
    intro c hc
    exact h c (by rw [heq]; simp [hc])
  · rename_i rest heq
    intro c hc
    exact h c (by rw [heq]; simp [hc])
  · exact h

/-- The digits that `formatPhoneNumber` puts after `254`. -/
theorem formatPhoneNumber_eq (s : String) :
    formatPhoneNumber s = "254" ++ removeLeadingCode (removeNonDigits s) := rfl

/-- Prefixing `254` to digits gives digits. -/
theorem digits_254_append (x : String) (h : ∀ c ∈ x.data, c.isDigit = true) :
    ∀ c ∈ ("254" ++ x).data, c.isDigit = true := by
  intro c hc
  rw [String.data_append, List.mem_append] at hc
  rcases hc with hc | hc
  · have h3 : ∀ d ∈ "254".data, d.isDigit = true := by decide
    exact h3 c hc
  · exact h c hc

/-- C14: for every string `N` of exactly nine decimal digits,
`formatPhoneNumber` maps `"0" + N`, `"+254" + N` and `"254" + N` all to
`"254" + N`. -/
theorem formatPhoneNumber_canonical (N : String) (_hlen : N.length = 9)
    (hdig : ∀ c ∈ N.data, c.isDigit = true) :
    formatPhoneNumber ("0" ++ N) = "254" ++ N ∧
    formatPhoneNumber ("+254" ++ N) = "254" ++ N ∧
    formatPhoneNumber ("254" ++ N) = "254" ++ N := by
  have h0 : removeNonDigits ("0" ++ N) = "0" ++ N := by
    apply removeNonDigits_of_digits
    intro c hc
    rw [String.data_append, List.mem_append] at hc
    rcases hc with hc | hc
    · have h1 : ∀ d ∈ "0".data, d.isDigit = true := by decide
      exact h1 c hc
    · exact hdig c hc
  have h254 : removeNonDigits ("254" ++ N) = "254" ++ N :=
    removeNonDigits_of_digits _ (digits_254_append N hdig)
  have hplus : removeNonDigits ("+254" ++ N) = "254" ++ N := by
    unfold removeNonDigits
    have e1 : ("+254" ++ N).data = '+' :: ("254" ++ N).data := by
      rw [String.data_append, String.data_append]; rfl
    rw [e1, List.filter_cons_of_neg (by decide),
      List.filter_eq_self.2 (digits_254_append N hdig)]
  refine ⟨?_, ?_, ?_⟩
  · rw [formatPhoneNumber_eq, h0, removeLeadingCode_zero]
  · rw [formatPhoneNumber_eq, hplus, removeLeadingCode_254]
  · rw [formatPhoneNumber_eq, h254, removeLeadingCode_254]

/-- Witness of C14: the three spellings of `712345678`. -/
theorem formatPhoneNumber_canonical_witness :
    formatPhoneNumber "0712345678" = "254712345678" ∧
    formatPhoneNumber "+254712345678" = "254712345678" ∧
    formatPhoneNumber "254712345678" = "254712345678" :=
  formatPhoneNumber_canonical "712345678" (by decide) (by decide)

/-- C15: `formatPhoneNumber` is idempotent on every input string. -/
theorem formatPhoneNumber_idempotent (s : String) :
    formatPhoneNumber (formatPhoneNumber s) = formatPhoneNumber s := by
  have hx : ∀ c ∈ (removeLeadingCode (removeNonDigits s)).data, c.isDigit = true :=
    removeLeadingCode_digits _ (removeNonDigits_digits s)
  rw [formatPhoneNumber_eq s, formatPhoneNumber_eq,
    removeNonDigits_of_digits _ (digits_254_append _ hx), removeLeadingCode_254]

/-- C16, as stated, fails: the empty string is mapped to `254`, three
characters long, and the eleven digits `07123456789` are mapped to
`2547123456789`, thirteen characters long. -/
theorem formatPhoneNumber_length_counterexample :
    formatPhoneNumber "" = "254" ∧ (formatPhoneNumber "").length ≠ 12 ∧
    formatPhoneNumber "07123456789" = "2547123456789" ∧
    (formatPhoneNumber "07123456789").length ≠ 12 := by
  decide

/-- C16, amended: for every input string the result of `formatPhoneNumber`
is `254` followed by decimal digits only, namely the digits of the input
after removal of a leading `0` or `254`; it is twelve characters long exactly
when those digits are nine. -/
theorem formatPhoneNumber_shape (s : String) :
    (formatPhoneNumber s).data =
      '2' :: '5' :: '4' :: (removeLeadingCode (removeNonDigits s)).data ∧
    (∀ c ∈ (formatPhoneNumber s).data, c.isDigit = true) ∧
    ((formatPhoneNumber s).length = 12 ↔
      (removeLeadingCode (removeNonDigits s)).length = 9) := by
  have hx : ∀ c ∈ (removeLeadingCode (removeNonDigits s)).data, c.isDigit = true :=
    removeLeadingCode_digits _ (removeNonDigits_digits s)
  have hdata : (formatPhoneNumber s).data =
      '2' :: '5' :: '4' :: (removeLeadingCode (removeNonDigits s)).data := by
    rw [formatPhoneNumber_eq, String.data_append]; rfl
  refine ⟨hdata, ?_, ?_⟩
  · rw [formatPhoneNumber_eq]
    exact digits_254_append _ hx
  · have h1 : (formatPhoneNumber s).length = (formatPhoneNumber s).data.length := rfl
    have h2 : (removeLeadingCode (removeNonDigits s)).length =
        (removeLeadingCode (removeNonDigits s)).data.length := rfl
    rw [h1, h2, hdata]
    simp only [List.length_cons]
    omega

/-! ## C17, C18: how `initiateSTKPush` reports the provider's answer -/

/-- The promise of `initiateSTKPush` always resolves, with the object that
`initiateSTKPush` describes. -/
theorem initiateSTKPushSettled_eq (gw : Gateway) (phone : String) (amount : ℚ) :
    initiateSTKPushSettled gw phone amount = .ok (initiateSTKPush gw phone amount) := by
  unfold initiateSTKPushSettled initiateSTKPushTry initiateSTKPush
  cases gw with
  | authFailure => rfl
  | networkFailure error => rfl
  | answer d =>
    dsimp only
    split_ifs <;> rfl

/-- C17: for every provider answer `d` to an STK push, the object that
`initiateSTKPush` resolves to has `success: true` exactly when
`d.ResponseCode` is the string `0`; in that case its `data` holds the
`CheckoutRequestID` and the `MerchantRequestID` of the answer, and otherwise
it holds no `data` at all. -/
theorem initiateSTKPush_success_iff (d : ProviderData) (phone : String) (amount : ℚ) :
    ((initiateSTKPush (.answer d) phone amount).prop "success" = some (.bool true) ↔
      d.ResponseCode = "0") ∧
    (d.ResponseCode = "0" →
      (initiateSTKPush (.answer d) phone amount).dataField "CheckoutRequestID" =
        some d.CheckoutRequestID ∧
      (initiateSTKPush (.answer d) phone amount).dataField "MerchantRequestID" =
        some d.MerchantRequestID) ∧
    (d.ResponseCode ≠ "0" →
      (initiateSTKPush (.answer d) phone amount).prop "data" = none) := by
  unfold initiateSTKPush
  dsimp only
  by_cases h : d.ResponseCode = "0"
  · rw [if_pos h]
    refine ⟨⟨fun _ => h, fun _ => rfl⟩, fun _ => ⟨?_, ?_⟩, fun hne => absurd h hne⟩
    · simp [JSObject.dataField, JSObject.prop, List.lookup]
    · simp [JSObject.dataField, JSObject.prop, List.lookup]
  · rw [if_neg h]
    refine ⟨⟨fun hs => ?_, fun hc => absurd hc h⟩, fun hc => absurd hc h, fun _ => ?_⟩
    · simp [stkFailure, JSObject.prop, List.lookup] at hs
    · simp [stkFailure, JSObject.prop, List.lookup]

/-- C18, as stated, fails: for the answer with `ResponseCode` `1` and
`ResponseDescription` `Rejected`, the promise of `initiateSTKPush` is
resolved, not rejected, and the object it is resolved with carries the
description and not the code. -/
theorem rejection_returned_counterexample :
    rejectingAnswer.ResponseCode ≠ "0" ∧
    initiateSTKPushSettled (.answer rejectingAnswer) demoPhone 500 =
      .ok [("success", .bool false), ("error", .str "Rejected"),
           ("message", .str "Failed to initiate payment. Please try again.")] :=
  ⟨by decide, rfl⟩

/-- C18, amended: for every provider answer whose `ResponseCode` is not `0`,
the exception thrown in the `try` block is caught in the function itself and
the promise of `initiateSTKPush` is resolved with the object
`{success: false, error, message}`, where `error` is the provider's
`ResponseDescription` (or `STK push failed` when that is empty) and
`message` is `Failed to initiate payment. Please try again.`; the provider's
code is not part of it. -/
theorem rejection_returned (d : ProviderData) (phone : String) (amount : ℚ)
    (h : d.ResponseCode ≠ "0") :
    initiateSTKPushTry (.answer d) =
      .error (if d.ResponseDescription = "" then "STK push failed"
              else d.ResponseDescription) ∧
    initiateSTKPushSettled (.answer d) phone amount =
      .ok [("success", .bool false),
           ("error", .str (if d.ResponseDescription = "" then "STK push failed"
                           else d.ResponseDescription)),
           ("message", .str "Failed to initiate payment. Please try again.")] := by
  have ht : initiateSTKPushTry (.answer d) =
      .error (if d.ResponseDescription = "" then "STK push failed"
              else d.ResponseDescription) := by
    unfold initiateSTKPushTry
    dsimp only
    rw [if_neg h]
  refine ⟨ht, ?_⟩
  unfold initiateSTKPushSettled
  rw [ht]
  rfl

/-- Witness of C18 amended: the rejecting answer of the counterexample. -/
theorem rejection_returned_witness :
    rejectingAnswer.ResponseCode ≠ "0" ∧
    initiateSTKPushSettled (.answer rejectingAnswer) demoPhone 500 =
      .ok [("success", .bool false),
           ("error", .str (if rejectingAnswer.ResponseDescription = "" then "STK push failed"
                           else rejectingAnswer.ResponseDescription)),
           ("message", .str "Failed to initiate payment. Please try again.")] :=
  ⟨by decide, (rejection_returned rejectingAnswer demoPhone 500 (by decide)).2⟩

/-! ## C19: the amount is rounded up -/

/-- The model of `Math.ceil` is the ceiling function. -/
theorem mathCeil_eq_ceil (a : ℚ) : mathCeil a = ⌈a⌉ := by
  have h : ⌊-a⌋ = (-a.num) / (a.den : Int) := by
    rw [Rat.floor_def]
    simp
  unfold mathCeil
  rw [← h, Int.floor_neg, neg_neg]

/-- C19: for every non-negative rational amount `a`, the `Amount` field of
the request body that `initiateSTKPush` builds is an integer not below `a`,
it is not above any integer that is not below `a`, and it is `a` itself when
`a` is a whole number. -/
theorem requestBody_amount (cfg : MpesaConfig) (date : LocalDate) (phoneNumber : String)
    (a : ℚ) (eventId : String) (_h : 0 ≤ a) :
    a ≤ ((requestBody cfg date phoneNumber a eventId).Amount : ℚ) ∧
    (∀ n : Int, a ≤ (n : ℚ) → (requestBody cfg date phoneNumber a eventId).Amount ≤ n) ∧
    (∀ n : Int, a = (n : ℚ) → (requestBody cfg date phoneNumber a eventId).Amount = n) := by
  have hA : (requestBody cfg date phoneNumber a eventId).Amount = ⌈a⌉ := mathCeil_eq_ceil a
  rw [hA]
  refine ⟨Int.le_ceil a, fun n hn => Int.ceil_le.2 hn, fun n hn => ?_⟩
  rw [hn]
  exact Int.ceil_intCast n

/-- The amount `499.5` is sent as `500`. -/
theorem requestBody_amount_example :
    (requestBody demoConfig demoDate demoPhone (999 / 2) "1").Amount = 500 := by
  have hA : (requestBody demoConfig demoDate demoPhone (999 / 2) "1").Amount = ⌈(999 / 2 : ℚ)⌉ :=
    mathCeil_eq_ceil _
  rw [hA, Int.ceil_eq_iff]
  constructor <;> norm_num

/-- Witness of C19: the amounts `499.5` and `500`. -/
theorem requestBody_amount_witness :
    (0 : ℚ) ≤ 999 / 2 ∧
    (999 / 2 : ℚ) ≤ ((requestBody demoConfig demoDate demoPhone (999 / 2) "1").Amount : ℚ) ∧
    (requestBody demoConfig demoDate demoPhone (999 / 2) "1").Amount ≤ 500 ∧
    (requestBody demoConfig demoDate demoPhone 500 "1").Amount = 500 :=
  ⟨by norm_num,
   (requestBody_amount demoConfig demoDate demoPhone (999 / 2) "1" (by norm_num)).1,
   (requestBody_amount demoConfig demoDate demoPhone (999 / 2) "1" (by norm_num)).2.1 500
     (by norm_num),
   (requestBody_amount demoConfig demoDate demoPhone 500 "1" (by norm_num)).2.2 500
     (by norm_num)⟩

/-! ## C20: the timestamp -/

/-- The character of a decimal digit is a digit and denotes it. -/
theorem digitChar_decimal : ∀ k, k < 10 →
    (Nat.digitChar k).isDigit = true ∧ (Nat.digitChar k).toNat - 48 = k := by
  decide

/-- A number below 100, printed and padded to two characters, is its tens
digit followed by its units digit. -/
theorem padStart_two (n : Nat) (h : n < 100) :
    (padStart (toString n) 2 '0').data = [Nat.digitChar (n / 10), Nat.digitChar (n % 10)] := by
  interval_cases n <;> rfl

/-- A number from 1000 to 9999 is printed as its four decimal digits. -/
theorem toString_four (n : Nat) (h1 : 1000 ≤ n) (h2 : n ≤ 9999) :
    (toString n).data =
      [Nat.digitChar (n / 1000), Nat.digitChar (n / 100 % 10), Nat.digitChar (n / 10 % 10),
       Nat.digitChar (n % 10)] := by
  show Nat.toDigitsCore 10 (n + 1) n [] = _
  obtain ⟨k, hk⟩ : ∃ k, n + 1 = k + 4 := ⟨n - 3, by omega⟩
  rw [hk]
  have e1 : n / 10 ≠ 0 := by omega
  have e2 : n / 10 / 10 ≠ 0 := by omega
  have e3 : n / 10 / 10 / 10 ≠ 0 := by omega
  have e4 : n / 10 / 10 / 10 / 10 = 0 := by omega
  have d1 : n / 10 / 10 / 10 % 10 = n / 1000 := by omega
  have d2 : n / 10 / 10 % 10 = n / 100 % 10 := by omega
  simp only [Nat.toDigitsCore, e1, e2, e3, e4, if_true, if_false, d1, d2]

/-- The fourteen characters of the timestamp of a valid date with a
four-digit year. -/
theorem generateTimestamp_data (d : LocalDate) (hv : d.Valid) (hy1 : 1000 ≤ d.fullYear)
    (hy2 : d.fullYear ≤ 9999) :
    (generateTimestamp d).data =
      [Nat.digitChar (d.fullYear / 1000), Nat.digitChar (d.fullYear / 100 % 10),
       Nat.digitChar (d.fullYear / 10 % 10), Nat.digitChar (d.fullYear % 10),
       Nat.digitChar ((d.month + 1) / 10), Nat.digitChar ((d.month + 1) % 10),
       Nat.digitChar (d.date / 10), Nat.digitChar (d.date % 10),
       Nat.digitChar (d.hours / 10), Nat.digitChar (d.hours % 10),
       Nat.digitChar (d.minutes / 10), Nat.digitChar (d.minutes % 10),
       Nat.digitChar (d.seconds / 10), Nat.digitChar (d.seconds % 10)] := by
  obtain ⟨hm, -, hd, hh, hmin, hs⟩ := hv
  unfold generateTimestamp
  simp only [String.data_append]
  rw [toString_four d.fullYear hy1 hy2, padStart_two (d.month + 1) (by omega),
    padStart_two d.date (by omega), padStart_two d.hours (by omega),
    padStart_two d.minutes (by omega), padStart_two d.seconds (by omega)]
  rfl

/-- C20: for every local date-time whose getters are in range and whose year
is from 1000 to 9999, `generateTimestamp` returns exactly 14 characters, all
decimal digits, and reading characters 0-3, 4-5, 6-7, 8-9, 10-11 and 12-13
as decimal numbers gives the year, the month (`getMonth() + 1`, from 1 to
12), the day, the hour, the minute and the second. -/
theorem generateTimestamp_format (d : LocalDate) (hv : d.Valid) (hy1 : 1000 ≤ d.fullYear)
    (hy2 : d.fullYear ≤ 9999) :
    (generateTimestamp d).length = 14 ∧
    (∀ c ∈ (generateTimestamp d).data, c.isDigit = true) ∧
    parseDecimal (slice (generateTimestamp d) 0 4) = d.fullYear ∧
    parseDecimal (slice (generateTimestamp d) 4 6) = d.month + 1 ∧
    (1 ≤ d.month + 1 ∧ d.month + 1 ≤ 12) ∧
    parseDecimal (slice (generateTimestamp d) 6 8) = d.date ∧
    parseDecimal (slice (generateTimestamp d) 8 10) = d.hours ∧
    parseDecimal (slice (generateTimestamp d) 10 12) = d.minutes ∧
    parseDecimal (slice (generateTimestamp d) 12 14) = d.seconds := by
  have hdata := generateTimestamp_data d hv hy1 hy2
  obtain ⟨hm, -, hd, hh, hmin, hs⟩ := hv
  have dy3 := digitChar_decimal (d.fullYear / 1000) (by omega)
  have dy2 := digitChar_decimal (d.fullYear / 100 % 10) (by omega)
  have dy1 := digitChar_decimal (d.fullYear / 10 % 10) (by omega)
  have dy0 := digitChar_decimal (d.fullYear % 10) (by omega)
  have dm1 := digitChar_decimal ((d.month + 1) / 10) (by omega)
  have dm0 := digitChar_decimal ((d.month + 1) % 10) (by omega)
  have dd1 := digitChar_decimal (d.date / 10) (by omega)
  have dd0 := digitChar_decimal (d.date % 10) (by omega)
  have dh1 := digitChar_decimal (d.hours / 10) (by omega)
  have dh0 := digitChar_decimal (d.hours % 10) (by omega)
  have dn1 := digitChar_decimal (d.minutes / 10) (by omega)
  have dn0 := digitChar_decimal (d.minutes % 10) (by omega)
  have ds1 := digitChar_decimal (d.seconds / 10) (by omega)
  have ds0 := digitChar_decimal (d.seconds % 10) (by omega)
  refine ⟨?_, ?_, ?_, ?_, ⟨by omega, by omega⟩, ?_, ?_, ?_, ?_⟩
  · have hlen : (generateTimestamp d).length = (generateTimestamp d).data.length := rfl
    rw [hlen, hdata]
    rfl
  · intro c hc
    rw [hdata] at hc
    simp only [List.mem_cons, List.mem_singleton, List.not_mem_nil, or_false] at hc
    rcases hc with h | h | h | h | h | h | h | h | h | h | h | h | h | h <;> rw [h]
    · exact dy3.1
    · exact dy2.1
    · exact dy1.1
    · exact dy0.1
    · exact dm1.1
    · exact dm0.1
    · exact dd1.1
    · exact dd0.1
    · exact dh1.1
    · exact dh0.1
    · exact dn1.1
    · exact dn0.1
    · exact ds1.1
    · exact ds0.1
  · simp only [parseDecimal, slice, hdata, List.drop, List.take, List.foldl, dy3.2, dy2.2,
      dy1.2, dy0.2]
    omega
  · simp only [parseDecimal, slice, hdata, List.drop, List.take, List.foldl, dm1.2, dm0.2]
    omega
  · simp only [parseDecimal, slice, hdata, List.drop, List.take, List.foldl, dd1.2, dd0.2]
    omega
  · simp only [parseDecimal, slice, hdata, List.drop, List.take, List.foldl, dh1.2, dh0.2]
    omega
  · simp only [parseDecimal, slice, hdata, List.drop, List.take, List.foldl, dn1.2, dn0.2]
    omega
  · simp only [parseDecimal, slice, hdata, List.drop, List.take, List.foldl, ds1.2, ds0.2]
    omega

/-- Witness of C20: 5 March 2024, 09:07:03. -/
theorem generateTimestamp_format_witness :
    demoDate.Valid ∧ generateTimestamp demoDate = "20240305090703" ∧
    (generateTimestamp demoDate).length = 14 ∧
    parseDecimal (slice (generateTimestamp demoDate) 0 4) = 2024 ∧
    parseDecimal (slice (generateTimestamp demoDate) 4 6) = 3 :=
  have h := generateTimestamp_format demoDate (by decide) (by decide) (by decide)
  ⟨by decide, by decide, h.1, h.2.2.1, h.2.2.2.1⟩

/-! ## C21: the password of a request -/

/-- A six-bit value is read back from its base64 character, which is not the
padding character. -/
theorem base64Value_char : ∀ n, n < 64 →
    base64Value (base64Char n) = n ∧ base64Char n ≠ '=' := by
  decide

/-- Decoding undoes encoding on every sequence of bytes. -/
theorem base64Decode_encode (bytes : List Nat) (h : ∀ b ∈ bytes, b < 256) :
    base64Decode (base64Encode bytes) = bytes := by
  induction bytes using base64Encode.induct with
  | case1 => rfl
  | case2 a =>
    have ha : a < 256 := h a (by simp)
    obtain ⟨v1, -⟩ := base64Value_char (a / 4) (by omega)
    obtain ⟨v2, -⟩ := base64Value_char (a % 4 * 16) (by omega)
    simp only [base64Encode, base64Decode, if_true, v1, v2]
    congr 1
    omega
  | case3 a b =>
    have ha : a < 256 := h a (by simp)
    have hb : b < 256 := h b (by simp)
    obtain ⟨v1, -⟩ := base64Value_char (a / 4) (by omega)
    obtain ⟨v2, -⟩ := base64Value_char (a % 4 * 16 + b / 16) (by omega)
    obtain ⟨v3, n3⟩ := base64Value_char (b % 16 * 4) (by omega)
    simp only [base64Encode, base64Decode, if_true, if_neg n3, v1, v2, v3]
    congr 1
    · omega
    · congr 1
      omega
  | case4 a b c rest ih =>
    have ha : a < 256 := h a (by simp)
    have hb : b < 256 := h b (by simp)
    have hc : c < 256 := h c (by simp)
    obtain ⟨v1, -⟩ := base64Value_char (a / 4) (by omega)
    obtain ⟨v2, -⟩ := base64Value_char (a % 4 * 16 + b / 16) (by omega)
    obtain ⟨v3, n3⟩ := base64Value_char (b % 16 * 4 + c / 64) (by omega)
    obtain ⟨v4, n4⟩ := base64Value_char (c % 64) (by omega)
    have ih1 := ih (fun x hx => h x (by simp [hx]))
    simp only [base64Encode, base64Decode, if_neg n3, if_neg n4, v1, v2, v3, v4, ih1]
    congr 1
    · omega
    · congr 1
      · omega
      · congr 1
        omega

/-- A character is a number below `0x110000`. -/
theorem char_toNat_lt (c : Char) : c.toNat < 1114112 := by
  have h := c.valid
  unfold Char.toNat
  rcases h with h | h
  · have : c.val.toNat < 55296 := h
    omega
  · have : c.val.toNat < 1114112 := h.2
    omega

/-- The UTF-8 encoding consists of bytes. -/
theorem utf8Bytes_lt (s : String) : ∀ b ∈ utf8Bytes s, b < 256 := by
  intro b hb
  unfold utf8Bytes at hb
  rw [List.mem_flatMap] at hb
  obtain ⟨c, -, hb⟩ := hb
  have hc := char_toNat_lt c
  unfold utf8EncodeChar at hb
  split_ifs at hb <;>
    simp only [List.mem_cons, List.mem_singleton, List.not_mem_nil, or_false] at hb <;> omega

/-- The bytes of a concatenation are the bytes of its parts. -/
theorem utf8Bytes_append (a b : String) : utf8Bytes (a ++ b) = utf8Bytes a ++ utf8Bytes b := by
  unfold utf8Bytes
  rw [String.data_append, List.flatMap_append]

/-- The encoding of text with characters of one, two, three and four bytes;
it is the encoding that `String.utf8EncodeChar` gives. -/
theorem utf8Bytes_example :
    utf8Bytes "aé€😀" = [97, 195, 169, 226, 130, 172, 240, 159, 152, 128] ∧
    utf8Bytes "aé€😀" =
      "aé€😀".data.flatMap (fun c => (String.utf8EncodeChar c).map UInt8.toNat) ∧
    utf8Decode [97, 195, 169, 226, 130, 172, 240, 159, 152, 128] = "aé€😀" := by
  decide

/-- Decoding reads the encoding of a character back as that character. -/
theorem utf8DecodeAux_char (c : Char) (rest : List Nat) :
    utf8DecodeAux (utf8EncodeChar c ++ rest) 0 0 = c :: utf8DecodeAux rest 0 0 := by
  have hc := char_toNat_lt c
  have hof : ∀ n, n = c.toNat → Char.ofNat n = c := by
    intro n hn
    rw [hn]
    exact Char.ofNat_toNat c
  unfold utf8EncodeChar
  by_cases h1 : c.toNat < 128
  · rw [if_pos h1]
    simp only [List.cons_append, List.nil_append, List.append_eq, utf8DecodeAux, if_true,
      if_pos h1]
    rw [hof _ rfl]
  · rw [if_neg h1]
    by_cases h2 : c.toNat < 2048
    · rw [if_pos h2]
      have a1 : ¬ (192 + c.toNat / 64 < 128) := by omega
      have a2 : 192 + c.toNat / 64 < 224 := by omega
      simp only [List.cons_append, List.nil_append, List.append_eq, utf8DecodeAux, if_true,
        if_neg a1, if_pos a2, Nat.one_ne_zero, if_false]
      rw [hof _ (by omega)]
    · rw [if_neg h2]
      by_cases h3 : c.toNat < 65536
      · rw [if_pos h3]
        have a1 : ¬ (224 + c.toNat / 4096 < 128) := by omega
        have a2 : ¬ (224 + c.toNat / 4096 < 224) := by omega
        have a3 : 224 + c.toNat / 4096 < 240 := by omega
        simp only [List.cons_append, List.nil_append, List.append_eq, utf8DecodeAux, if_true,
          if_neg a1, if_neg a2, if_pos a3, Nat.one_ne_zero, if_false, OfNat.ofNat_ne_zero,
          OfNat.ofNat_ne_one, Nat.add_one_sub_one, Nat.reduceSub]
        rw [hof _ (by omega)]
      · rw [if_neg h3]
        have a1 : ¬ (240 + c.toNat / 262144 < 128) := by omega
        have a2 : ¬ (240 + c.toNat / 262144 < 224) := by omega
        have a3 : ¬ (240 + c.toNat / 262144 < 240) := by omega
        simp only [List.cons_append, List.nil_append, List.append_eq, utf8DecodeAux, if_true,
          if_neg a1, if_neg a2, if_neg a3, Nat.one_ne_zero, if_false, OfNat.ofNat_ne_zero,
          OfNat.ofNat_ne_one, Nat.add_one_sub_one, Nat.reduceSub, Nat.reduceEqDiff]
        rw [hof _ (by omega)]

/-- Decoding the UTF-8 encoding of a text gives the text back. -/
theorem utf8Decode_bytes (s : String) : utf8Decode (utf8Bytes s) = s := by
  have key : ∀ l : List Char, utf8DecodeAux (l.flatMap utf8EncodeChar) 0 0 = l := by
    intro l
    induction l with
    | nil => rfl
    | cons c l ih => rw [List.flatMap_cons, utf8DecodeAux_char, ih]
  unfold utf8Decode utf8Bytes
  rw [key]

/-- Base64-decoding the generated password and reading the bytes as UTF-8
gives `SHORTCODE`, `PASSKEY` and the timestamp, concatenated. -/
theorem generatePassword_decode (cfg : MpesaConfig) (t : String) :
    utf8Decode (base64Decode (generatePassword cfg t).data) =
      cfg.SHORTCODE ++ cfg.PASSKEY ++ t := by
  unfold generatePassword
  rw [base64Decode_encode _ (utf8Bytes_lt _), utf8Decode_bytes]

/-- C21: in the STK push request and in the status query, the `Password`
field is the base64 encoding of the UTF-8 bytes of `SHORTCODE`, `PASSKEY` and
the `Timestamp` field of the same request, concatenated; base64-decoding it
gives the bytes of `SHORTCODE`, followed by those of `PASSKEY`, followed by
those of that `Timestamp`, and read as UTF-8 text these bytes are `SHORTCODE`
followed by `PASSKEY` followed by that `Timestamp`. -/
theorem password_roundtrip (cfg : MpesaConfig) (date : LocalDate) (phoneNumber : String)
    (amount : ℚ) (eventId checkoutRequestID : String) :
    ((requestBody cfg date phoneNumber amount eventId).Password =
        String.mk (base64Encode (utf8Bytes (cfg.SHORTCODE ++ cfg.PASSKEY ++
          (requestBody cfg date phoneNumber amount eventId).Timestamp))) ∧
      base64Decode (requestBody cfg date phoneNumber amount eventId).Password.data =
        utf8Bytes cfg.SHORTCODE ++ utf8Bytes cfg.PASSKEY ++
          utf8Bytes (requestBody cfg date phoneNumber amount eventId).Timestamp ∧
      utf8Decode (base64Decode (requestBody cfg date phoneNumber amount eventId).Password.data) =
        cfg.SHORTCODE ++ cfg.PASSKEY ++
          (requestBody cfg date phoneNumber amount eventId).Timestamp) ∧
    ((queryBody cfg date checkoutRequestID).Password =
        String.mk (base64Encode (utf8Bytes (cfg.SHORTCODE ++ cfg.PASSKEY ++
          (queryBody cfg date checkoutRequestID).Timestamp))) ∧
      base64Decode (queryBody cfg date checkoutRequestID).Password.data =
        utf8Bytes cfg.SHORTCODE ++ utf8Bytes cfg.PASSKEY ++
          utf8Bytes (queryBody cfg date checkoutRequestID).Timestamp ∧
      utf8Decode (base64Decode (queryBody cfg date checkoutRequestID).Password.data) =
        cfg.SHORTCODE ++ cfg.PASSKEY ++ (queryBody cfg date checkoutRequestID).Timestamp) := by
  have key : ∀ t : String, base64Decode (generatePassword cfg t).data =
      utf8Bytes cfg.SHORTCODE ++ utf8Bytes cfg.PASSKEY ++ utf8Bytes t := by
    intro t
    unfold generatePassword
    rw [base64Decode_encode _ (utf8Bytes_lt _), utf8Bytes_append, utf8Bytes_append]
  exact ⟨⟨rfl, key _, generatePassword_decode cfg _⟩, ⟨rfl, key _, generatePassword_decode cfg _⟩⟩

/-- The password of the example request, and what decoding it gives. -/
theorem password_example :
    (requestBody demoConfig demoDate demoPhone 500 "1").Password =
      "MTc0Mzc5cGFzc2tleTIwMjQwMzA1MDkwNzAz" ∧
    utf8Decode (base64Decode (requestBody demoConfig demoDate demoPhone 500
        "1").Password.data) = "174379passkey20240305090703" := by
  decide

/-! ## C22, C24: the provider callback -/

/-- No route of the four routers matches the callback path, under any
method. -/
theorem findRoute_callback (m : Method) : findRoute m callbackPath = none := by
  cases m <;> decide

/-- C22 fails on the code: a `POST` to `/events/mpesa/callback`, with any
body and any `_method` override, matches no route; it is answered by the 404
handler, or by the error handler with 500 when a middleware or the rendering
fails, and never with 200. -/
theorem callback_not_acknowledged (env : AppEnv) (queryMethod : Option Method)
    (body : CallbackBody) :
    (postCallback env queryMethod body).status =
      some (if env.middlewareFails = true ∨ env.renderFails = true then 500 else 404) ∧
    (postCallback env queryMethod body).status ≠ some 200 := by
  unfold postCallback dispatch
  rw [findRoute_callback]
  cases h1 : env.middlewareFails <;> cases h2 : env.renderFails <;> simp [Dispatch.status]

/-- C24 fails on the code: the ledger of event `1` holds a pending attendance
with reference `ws_CO_8`; the success callback for `ws_CO_8` reaches no
handler: it is answered 404 and leaves the collections as they were, so the
attendance is still pending after the first application, and after the
second. -/
theorem callback_changes_nothing :
    (⟨8, .pending, some "ws_CO_8"⟩ : Attendance) ∈ attendedEvent.attendees ∧
    (postCallback ⟨false, false⟩ none ⟨"ws_CO_8", 0, "Success"⟩).status = some 404 ∧
    ((postCallback ⟨false, false⟩ none ⟨"ws_CO_8", 0, "Success"⟩).store
        (storeWith attendedEvent staleUser)).map (fun s => ledgerOf s 1) =
      some [⟨7, .paid, none⟩, ⟨8, .pending, some "ws_CO_8"⟩] := by
  decide

/-- A callback leaves the collections as they were, whatever it carries. -/
theorem callback_store (env : AppEnv) (queryMethod : Option Method) (body : CallbackBody)
    (s : Store) : (postCallback env queryMethod body).store s = some s := by
  unfold postCallback dispatch
  rw [findRoute_callback]
  cases h1 : env.middlewareFails <;> cases h2 : env.renderFails <;> simp [Dispatch.store]

/-- The table does route the registration requests: a `POST` to
`/events/1/rsvp` reaches the RSVP handler. -/
theorem findRoute_rsvp :
    findRoute .POST ["events", "1", "rsvp"] =
      some (["events"], ⟨.POST, [.param "id", .lit "rsvp"]⟩) := by
  decide

/-! ## C23: price and the paid flag -/

/-- Which branch the RSVP handler takes on a stored event that passes both
checks, with storage working and the user stored: it answers `Payment
processing failed` exactly when `isPaid` is true, and registers the user for
free exactly when `isPaid` is false. -/
theorem rsvp_branch (env : Env) (s : Store) (eventId userId : Nat) (phone : String)
    (e : Event) (u : User) (hok : env.storageOk) (he : s.events eventId = some e)
    (hu : s.users userId = some u) (hatt : isAttending e userId = false)
    (hfull : eventIsFull e = false) :
    ((postRsvp env s eventId userId phone).response =
        ⟨500, false, "Payment processing failed", none⟩ ↔ e.isPaid = true) ∧
    ((postRsvp env s eventId userId phone).response =
        ⟨200, true, "Successfully RSVP'd to event", none⟩ ↔ e.isPaid = false) := by
  obtain ⟨h1, h2, h3, h4⟩ := hok
  rw [postRsvp_found env s eventId userId phone e h1 h2 he]
  cases hp : e.isPaid <;> simp [hatt, hfull, saveBoth_response, h3, h4, hu]

/-- C23, as stated, fails in two ways. The create-event route, given the price
`-5`, stores an event with price `-5` and `isPaid` false, and the RSVP
handler registers a user for it without payment, although the stored price
is not `0`. Given a blank price, it stores an event with price `null` and
`isPaid` false, again registered for without payment, and `null` is not the
stored price `0` either. -/
theorem negative_price_counterexample :
    (createdEvent ⟨.number (-5), some 10⟩ 9 = some ⟨10, some (-5), false, 9, []⟩ ∧
      (some (-5) : Option ℚ) ≠ some 0 ∧
      (postRsvp (Env.ok .authFailure) (storeWith ⟨10, some (-5), false, 9, []⟩ newUser) 1 7
          demoPhone).response = ⟨200, true, "Successfully RSVP'd to event", none⟩) ∧
    (createdEvent ⟨.blank, some 10⟩ 9 = some ⟨10, none, false, 9, []⟩ ∧
      (none : Option ℚ) ≠ some 0 ∧
      (postRsvp (Env.ok .authFailure) (storeWith ⟨10, none, false, 9, []⟩ newUser) 1 7
          demoPhone).response = ⟨200, true, "Successfully RSVP'd to event", none⟩) := by
  decide

/-- The update-event route, given a body without a price, turns the paid
flag of an event with price `500` off and leaves the price: the RSVP handler
then registers a user for it without payment. -/
theorem update_without_price :
    updatedEvent ⟨.missing, none⟩ paidEvent = some ⟨10, some 500, false, 9, []⟩ ∧
    (postRsvp (Env.ok .authFailure) (storeWith ⟨10, some 500, false, 9, []⟩ newUser) 1 7
        demoPhone).response = ⟨200, true, "Successfully RSVP'd to event", none⟩ := by
  decide

/-- C23, amended: for every event stored by the create-event route, and by
the update-event route when the request carries a price, `isPaid` is true
exactly when the stored price is a number greater than `0`, and false
exactly when the stored price is `null`, `0` or negative; and the RSVP
handler takes the payment branch on a stored event exactly when its `isPaid`
is true. -/
theorem stored_price_flag (form : EventForm) (creator : Nat) (old : Event) :
    (∀ e, createdEvent form creator = some e →
      (e.isPaid = true ↔ ∃ q, e.price = some q ∧ 0 < q) ∧
      (e.isPaid = false ↔ (e.price = none ∨ ∃ q, e.price = some q ∧ q ≤ 0))) ∧
    (form.price ≠ .missing → ∀ e, updatedEvent form old = some e →
      (e.isPaid = true ↔ ∃ q, e.price = some q ∧ 0 < q) ∧
      (e.isPaid = false ↔ (e.price = none ∨ ∃ q, e.price = some q ∧ q ≤ 0))) ∧
    (∀ (env : Env) (s : Store) (eventId userId : Nat) (phone : String) (e : Event) (u : User),
      env.storageOk → s.events eventId = some e → s.users userId = some u →
      isAttending e userId = false → eventIsFull e = false →
      ((postRsvp env s eventId userId phone).response =
        ⟨500, false, "Payment processing failed", none⟩ ↔ e.isPaid = true)) := by
  refine ⟨?_, ?_, ?_⟩
  · intro e he
    unfold createdEvent at he
    cases hc : form.capacity with
    | none => simp [hc] at he
    | some c =>
      cases hp : form.price with
      | missing =>
        simp only [hc, hp, Option.some.injEq] at he
        subst he
        simp
      | blank =>
        simp only [hc, hp, Option.some.injEq] at he
        subst he
        simp
      | number q =>
        simp only [hc, hp, Option.some.injEq] at he
        subst he
        simp
      | notNumber => simp [hc, hp] at he
  · intro hne e he
    unfold updatedEvent at he
    cases hp : form.price with
    | missing => exact absurd hp hne
    | blank =>
      simp only [hp, Option.some.injEq] at he
      subst he
      simp
    | number q =>
      simp only [hp, Option.some.injEq] at he
      subst he
      simp
    | notNumber => simp [hp] at he
  · intro env s eventId userId phone e u hok he hu hatt hfull
    exact (rsvp_branch env s eventId userId phone e u hok he hu hatt hfull).1

/-- Witness of C23 amended: an update that sets the price to `500`, an update
with a blank price, and a creation with the price `500`. -/
theorem stored_price_flag_witness :
    updatedEvent ⟨.number 500, none⟩ freeEvent = some ⟨2, some 500, true, 9, []⟩ ∧
    updatedEvent ⟨.blank, none⟩ paidEvent = some ⟨10, none, false, 9, []⟩ ∧
    createdEvent ⟨.number 500, some 10⟩ 9 = some paidEvent ∧
    (paidEvent.isPaid = true ↔ ∃ q, paidEvent.price = some q ∧ 0 < q) :=
  ⟨by decide, by decide, by decide,
   ((stored_price_flag ⟨.number 500, some 10⟩ 9 freeEvent).1 paidEvent (by decide)).1⟩

/-! ## C27, C28: the fullness tests and the remaining spots -/

/-- C27 fails on the code: for the event of capacity `0` the test of the RSVP
route and the test of the event-details route say not full, and the `isFull`
virtual of the model says full. -/
theorem fullness_tests_differ :
    zeroCapacityEvent.capacity = 0 ∧
    eventIsFull zeroCapacityEvent = false ∧
    detailsIsFull zeroCapacityEvent = false ∧
    zeroCapacityEvent.isFull = true := by
  decide

/-- The three fullness tests agree on every event whose capacity is not `0`. -/
theorem fullness_tests_agree (e : Event) (h : e.capacity ≠ 0) :
    eventIsFull e = e.isFull ∧ detailsIsFull e = e.isFull := by
  unfold eventIsFull detailsIsFull Event.isFull
  simp [h]

/-- C28: for every event, the `remainingSpots` virtual is
`max(0, capacity - attendees.length)`, it is never negative, and it is `0`
exactly when the `isFull` virtual is true. -/
theorem remainingSpots_spec (e : Event) :
    e.remainingSpots = max 0 (e.capacity - (e.attendees.length : ℚ)) ∧
    0 ≤ e.remainingSpots ∧
    (e.remainingSpots = 0 ↔ e.isFull = true) := by
  unfold Event.remainingSpots Event.isFull
  refine ⟨rfl, le_max_left _ _, ?_⟩
  rw [decide_eq_true_iff]
  constructor
  · intro h
    have := le_max_right 0 (e.capacity - (e.attendees.length : ℚ))
    linarith
  · intro h
    exact max_eq_left (by linarith)

/-! ## C29: the paid path of the RSVP handler -/

/-- C29: the exports of the gateway module are `initiateSTKPush` and
`verifyTransaction`, so the name `mpesaPayment` that the routes module
imports is bound to nothing; and for every found paid event and every user
that passes the duplicate and capacity checks, the RSVP handler answers 500
`Payment processing failed`, leaves the whole store (hence the event's ledger
and the user's projection) as it was, and reaches no gateway function. -/
theorem paid_rsvp_fails (env : Env) (s : Store) (eventId userId : Nat) (phone : String)
    (e : Event) (hf : env.eventFindRejects = false) (hu : env.userFindRejects = false)
    (he : s.events eventId = some e) (hpaid : e.isPaid = true)
    (hatt : isAttending e userId = false) (hfull : eventIsFull e = false) :
    mpesaExports.map Prod.fst = ["initiateSTKPush", "verifyTransaction"] ∧
    mpesaPayment = none ∧
    (postRsvp env s eventId userId phone).response =
      ⟨500, false, "Payment processing failed", none⟩ ∧
    (postRsvp env s eventId userId phone).store = s ∧
    ledgerOf (postRsvp env s eventId userId phone).store eventId = ledgerOf s eventId ∧
    projectionOf (postRsvp env s eventId userId phone).store userId = projectionOf s userId ∧
    (postRsvp env s eventId userId phone).gatewayCalls = [] := by
  have h := postRsvp_paid env s eventId userId phone e hf hu he hpaid hatt hfull
  rw [h]
  exact ⟨rfl, mpesaPayment_undefined, rfl, rfl, rfl, rfl, rfl⟩

/-- Witness of C29: user `7` and the paid event, with a provider that would
accept. -/
theorem paid_rsvp_fails_witness :
    paidEvent.isPaid = true ∧ isAttending paidEvent 7 = false ∧
    eventIsFull paidEvent = false ∧
    (postRsvp (Env.ok acceptingGateway) (storeWith paidEvent newUser) 1 7 demoPhone).response =
      ⟨500, false, "Payment processing failed", none⟩ ∧
    (postRsvp (Env.ok acceptingGateway) (storeWith paidEvent newUser) 1 7 demoPhone).store =
      storeWith paidEvent newUser :=
  have h := paid_rsvp_fails (Env.ok acceptingGateway) (storeWith paidEvent newUser) 1 7
    demoPhone paidEvent rfl rfl rfl rfl (by decide) (by decide)
  ⟨rfl, by decide, by decide, h.2.2.1, h.2.2.2.1⟩

/-! ## C30: what a cancel leaves alone -/

/-- C30: after a cancel answered 200, the stored ledger of the event is the
old ledger without the attendances of the user, so the attendances of all
other users are there unchanged and in their old order; and the stored
projection of the user is the old projection without the entries for the
event, so the entries for all other events are there unchanged and in their
old order. -/
theorem cancel_frame (env : Env) (s : Store) (eventId userId : Nat)
    (h : (deleteRsvp env s eventId userId).response.status = 200) :
    ledgerOf (deleteRsvp env s eventId userId).store eventId =
      (ledgerOf s eventId).filter (fun a => !(a.user == userId)) ∧
    (ledgerOf (deleteRsvp env s eventId userId).store eventId).filter
        (fun a => !(a.user == userId)) =
      (ledgerOf s eventId).filter (fun a => !(a.user == userId)) ∧
    projectionOf (deleteRsvp env s eventId userId).store userId =
      (projectionOf s userId).filter (fun r => !(r.event == eventId)) ∧
    (projectionOf (deleteRsvp env s eventId userId).store userId).filter
        (fun r => !(r.event == eventId)) =
      (projectionOf s userId).filter (fun r => !(r.event == eventId)) := by
  obtain ⟨e, u, he, hu, hstore⟩ := deleteRsvp_success env s eventId userId h
  have hl : ledgerOf s eventId = e.attendees := by simp [ledgerOf, he]
  have hp : projectionOf s userId = u.attendingEvents := by simp [projectionOf, hu]
  rw [hstore, ledgerOf_saved, projectionOf_saved, if_pos rfl, if_pos rfl, hl, hp]
  simp only [List.filter_filter, Bool.and_self]
  exact ⟨trivial, trivial, trivial, trivial⟩

/-- Witness of C30: user `7` cancels; the pending attendance of user `8`
stays. -/
theorem cancel_frame_witness :
    (deleteRsvp (Env.ok .authFailure) (storeWith attendedEvent staleUser) 1 7).response.status
      = 200 ∧
    ledgerOf (deleteRsvp (Env.ok .authFailure) (storeWith attendedEvent staleUser) 1 7).store 1 =
      [⟨8, .pending, some "ws_CO_8"⟩] ∧
    ledgerOf (deleteRsvp (Env.ok .authFailure) (storeWith attendedEvent staleUser) 1 7).store 1 =
      (ledgerOf (storeWith attendedEvent staleUser) 1).filter (fun a => !(a.user == 7)) :=
  ⟨by decide, by decide,
   (cancel_frame (Env.ok .authFailure) (storeWith attendedEvent staleUser) 1 7
      (by decide)).1⟩

/-! ## C26: sequential registrations fill the event and no more -/

/-- One RSVP of a stored user, not in the ledger, for a free event that is
not full, with storage working: it is registered, and both documents are
saved. -/
theorem handle_rsvp_registered (env : Env) (s : Store) (eventId userId : Nat)
    (phone : String) (e : Event) (u : User) (hok : env.storageOk)
    (he : s.events eventId = some e) (hu : s.users userId = some u)
    (hfree : e.isPaid = false) (hatt : isAttending e userId = false)
    (hfull : eventIsFull e = false) :
    (handle env s (.rsvp eventId userId phone)).response = rsvpRegistered ∧
    (handle env s (.rsvp eventId userId phone)).store =
      (s.saveEvent eventId
        { e with attendees := e.attendees ++ [⟨userId, .paid, none⟩] }).saveUser userId
        { u with attendingEvents := u.attendingEvents ++ [⟨eventId, .paid, none⟩] } := by
  obtain ⟨h1, h2, h3, h4⟩ := hok
  show (postRsvp env s eventId userId phone).response = _ ∧
    (postRsvp env s eventId userId phone).store = _
  rw [postRsvp_found env s eventId userId phone e h1 h2 he]
  simp [hatt, hfull, hfree, saveBoth, h3, h4, hu, rsvpRegistered]

/-- One RSVP of a user not in the ledger for an event that is full: it is
rejected, and nothing is written. -/
theorem handle_rsvp_full (env : Env) (s : Store) (eventId userId : Nat)
    (phone : String) (e : Event) (hok : env.storageOk)
    (he : s.events eventId = some e) (hatt : isAttending e userId = false)
    (hfull : eventIsFull e = true) :
    (handle env s (.rsvp eventId userId phone)).response = rsvpFull ∧
    (handle env s (.rsvp eventId userId phone)).store = s := by
  obtain ⟨h1, h2, -, -⟩ := hok
  show (postRsvp env s eventId userId phone).response = _ ∧
    (postRsvp env s eventId userId phone).store = _
  rw [postRsvp_found env s eventId userId phone e h1 h2 he]
  simp [hatt, hfull, rsvpFull]

/-- Sequential RSVPs of distinct stored users, none of them in the ledger,
for a free event of capacity `C ≥ 1` whose ledger has `n` attendances: the
first `C - n` of them are registered and appended to the ledger in order,
all later ones are rejected as full. -/
theorem runResponses_fill (eventId : Nat) (envOf : Nat → Env) (phoneOf : Nat → String)
    (C : Nat) (hC : 1 ≤ C) (hok : ∀ u, (envOf u).storageOk) (users : List Nat) :
    ∀ (s : Store) (e : Event), s.events eventId = some e → e.isPaid = false →
      e.capacity = (C : ℚ) → users.Nodup →
      (∀ u ∈ users, isAttending e u = false) →
      (∀ u ∈ users, (s.users u).isSome = true) →
      (runResponses s (rsvpRequests eventId envOf phoneOf users)).1 =
        List.replicate (min (C - e.attendees.length) users.length) rsvpRegistered ++
          List.replicate (users.length - (C - e.attendees.length)) rsvpFull ∧
      ledgerOf (runResponses s (rsvpRequests eventId envOf phoneOf users)).2 eventId =
        e.attendees ++
          (users.take (C - e.attendees.length)).map (fun u => ⟨u, .paid, none⟩) := by
  induction users with
  | nil =>
    intro s e he _ _ _ _ _
    simp [rsvpRequests, runResponses, ledgerOf, he]
  | cons u rest ih =>
    intro s e he hfree hcap hnodup hnew husers
    have hu_att : isAttending e u = false := hnew u (by simp)
    obtain ⟨u0, hu0⟩ := Option.isSome_iff_exists.1 (husers u (by simp))
    have hnd : u ∉ rest ∧ rest.Nodup := List.nodup_cons.1 hnodup
    have hreq : rsvpRequests eventId envOf phoneOf (u :: rest) =
        (envOf u, Request.rsvp eventId u (phoneOf u)) ::
          rsvpRequests eventId envOf phoneOf rest := rfl
    rw [hreq]
    simp only [runResponses]
    by_cases hlt : e.attendees.length < C
    · have hfull : eventIsFull e = false := by
        unfold eventIsFull
        rw [hcap]
        simp
        omega
      obtain ⟨hresp, hstore⟩ := handle_rsvp_registered (envOf u) s eventId u (phoneOf u) e u0
        (hok u) he hu0 hfree hu_att hfull
      rw [hresp, hstore]
      have he1 : ((s.saveEvent eventId
          { e with attendees := e.attendees ++ [⟨u, .paid, none⟩] }).saveUser u
          { u0 with attendingEvents := u0.attendingEvents ++ [⟨eventId, .paid, none⟩] }).events
            eventId = some { e with attendees := e.attendees ++ [⟨u, .paid, none⟩] } := by
        simp [Store.saveUser, Store.saveEvent]
      have hnew1 : ∀ v ∈ rest, isAttending
          { e with attendees := e.attendees ++ [⟨u, .paid, none⟩] } v = false := by
        intro v hv
        have h1 := hnew v (by simp [hv])
        have hne : u ≠ v := fun h => hnd.1 (h ▸ hv)
        unfold isAttending at h1 ⊢
        simp only [List.any_append, h1, List.any_cons, List.any_nil, Bool.or_false,
          Bool.false_or]
        simpa using hne
      have husers1 : ∀ v ∈ rest, (((s.saveEvent eventId
          { e with attendees := e.attendees ++ [⟨u, .paid, none⟩] }).saveUser u
          { u0 with attendingEvents := u0.attendingEvents ++ [⟨eventId, .paid, none⟩] }).users
            v).isSome = true := by
        intro v hv
        have h1 := husers v (by simp [hv])
        by_cases hvu : v = u <;> simp [Store.saveUser, Store.saveEvent, hvu, h1]
      obtain ⟨ihr, ihl⟩ := ih _ _ he1 hfree hcap hnd.2 hnew1 husers1
      rw [ihr, ihl]
      simp only [List.length_append, List.length_singleton, List.length_cons]
      have k1 : C - e.attendees.length = (C - (e.attendees.length + 1)) + 1 := by omega
      constructor
      · have m1 : min (C - e.attendees.length) (rest.length + 1) =
            min (C - (e.attendees.length + 1)) rest.length + 1 := by omega
        have m2 : rest.length + 1 - (C - e.attendees.length) =
            rest.length - (C - (e.attendees.length + 1)) := by omega
        rw [m1, m2, List.replicate_succ]
        rfl
      · rw [k1, List.take_succ_cons, List.map_cons, List.append_assoc]
        rfl
    · have hfull : eventIsFull e = true := by
        unfold eventIsFull
        rw [hcap]
        simp
        omega
      obtain ⟨hresp, hstore⟩ := handle_rsvp_full (envOf u) s eventId u (phoneOf u) e
        (hok u) he hu_att hfull
      rw [hresp, hstore]
      obtain ⟨ihr, ihl⟩ := ih s e he hfree hcap hnd.2
        (fun v hv => hnew v (by simp [hv])) (fun v hv => husers v (by simp [hv]))
      rw [ihr, ihl]
      have z : C - e.attendees.length = 0 := by omega
      simp only [z, List.length_cons, Nat.zero_min, List.replicate_zero, List.nil_append,
        Nat.sub_zero, List.take_zero, List.map_nil, List.replicate_succ, and_self]

/-- C26: for every free event with capacity `C ≥ 1` and an empty ledger, and
every list of more than `C` RSVP requests by pairwise distinct stored users,
run one after another in the order of the list with storage working, the
responses are `C` times 200 `Successfully RSVP'd to event` followed by 400
`Event is full` for each of the others, and the ledger afterwards holds
exactly the `C` paid attendances of the first `C` users, in order. -/
theorem sequential_registrations (eventId : Nat) (envOf : Nat → Env)
    (phoneOf : Nat → String) (C : Nat) (users : List Nat) (s : Store) (e : Event)
    (hC : 1 ≤ C) (hok : ∀ u, (envOf u).storageOk) (he : s.events eventId = some e)
    (hfree : e.isPaid = false) (hcap : e.capacity = (C : ℚ)) (hempty : e.attendees = [])
    (hnodup : users.Nodup) (husers : ∀ u ∈ users, (s.users u).isSome = true)
    (hK : C < users.length) :
    (runResponses s (rsvpRequests eventId envOf phoneOf users)).1 =
      List.replicate C rsvpRegistered ++ List.replicate (users.length - C) rsvpFull ∧
    ledgerOf (runResponses s (rsvpRequests eventId envOf phoneOf users)).2 eventId =
      (users.take C).map (fun u => ⟨u, .paid, none⟩) ∧
    (ledgerOf (runResponses s (rsvpRequests eventId envOf phoneOf users)).2 eventId).length =
      C := by
  have hnew : ∀ u ∈ users, isAttending e u = false := by
    intro u _
    simp [isAttending, hempty]
  obtain ⟨hr, hl⟩ := runResponses_fill eventId envOf phoneOf C hC hok users s e he hfree hcap
    hnodup hnew husers
  rw [hempty] at hr hl
  simp only [List.length_nil, Nat.sub_zero, List.nil_append] at hr hl
  rw [Nat.min_eq_left (Nat.le_of_lt hK)] at hr
  refine ⟨hr, hl, ?_⟩
  rw [hl, List.length_map, List.length_take, Nat.min_eq_left (Nat.le_of_lt hK)]

/-- Witness of C26: capacity `1`, the users `8`, `7` and `9` in this order. -/
theorem sequential_registrations_witness :
    (runResponses threeUserStore
        (rsvpRequests 1 (fun _ => Env.ok .authFailure) (fun _ => demoPhone) [8, 7, 9])).1 =
      List.replicate 1 rsvpRegistered ++ List.replicate ([8, 7, 9].length - 1) rsvpFull ∧
    ledgerOf (runResponses threeUserStore
        (rsvpRequests 1 (fun _ => Env.ok .authFailure) (fun _ => demoPhone) [8, 7, 9])).2 1 =
      ([8, 7, 9].take 1).map (fun u => ⟨u, .paid, none⟩) ∧
    (ledgerOf (runResponses threeUserStore
        (rsvpRequests 1 (fun _ => Env.ok .authFailure) (fun _ => demoPhone) [8, 7, 9])).2
        1).length = 1 :=
  sequential_registrations 1 (fun _ => Env.ok .authFailure) (fun _ => demoPhone) 1 [8, 7, 9]
    threeUserStore ⟨1, some 0, false, 9, []⟩ (by decide) (fun _ => ⟨rfl, rfl, rfl, rfl⟩) rfl rfl rfl rfl
    (by decide) (by decide) (by decide)

/-! ## C25: interleaved registrations -/

/-- A request that runs its four blocks with no other block in between
behaves as the handler run in one piece. -/
theorem run_alone (s : Store) (eventId userId : Nat) (phone : String) (gw : Gateway) :
    ((System.mk s [⟨eventId, userId, .start⟩]).run [0, 0, 0, 0]).phases =
      [.finished (postRsvp (Env.ok gw) s eventId userId phone).response] ∧
    ((System.mk s [⟨eventId, userId, .start⟩]).run [0, 0, 0, 0]).store =
      (postRsvp (Env.ok gw) s eventId userId phone).store := by
  cases he : s.events eventId with
  | none =>
    simp [System.run, System.step, stepTask, System.phases, postRsvp, rsvpHandler, Env.ok, he]
  | some e =>
    rw [postRsvp_found (Env.ok gw) s eventId userId phone e rfl rfl he]
    by_cases hatt : isAttending e userId = true
    · simp [System.run, System.step, stepTask, System.phases, he, hatt]
    by_cases hfull : eventIsFull e = true
    · simp [System.run, System.step, stepTask, System.phases, he, hatt, hfull]
    by_cases hp : e.isPaid = true
    · simp [System.run, System.step, stepTask, System.phases, he, hatt, hfull, hp]
    cases hu : s.users userId with
    | none =>
      simp [System.run, System.step, stepTask, System.phases, he, hatt, hfull, hp, hu,
        saveBoth, Env.ok, Store.pushAttendee]
    | some u =>
      simp [System.run, System.step, stepTask, System.phases, he, hatt, hfull, hp, hu,
        saveBoth, Env.ok, Store.pushAttendee, Store.pushAttending, Store.saveEvent,
        Store.saveUser]

/-- C25 fails on the code: event `1` has capacity `1` and an empty ledger;
the requests of users `7` and `8` run with their blocks alternating, so both
load the event before either saves it. Both are answered 200, none is
rejected as full, and the ledger ends with two attendances. Run one after the
other, the first is registered and the second rejected. -/
theorem interleaved_overbooking :
    (twoRequests.run [0, 1, 0, 1, 0, 1, 0, 1]).phases =
      [.finished rsvpRegistered, .finished rsvpRegistered] ∧
    ledgerOf (twoRequests.run [0, 1, 0, 1, 0, 1, 0, 1]).store 1 =
      [⟨7, .paid, none⟩, ⟨8, .paid, none⟩] ∧
    (twoRequests.run [0, 0, 0, 0, 1, 1, 1, 1]).phases =
      [.finished rsvpRegistered, .finished rsvpFull] ∧
    ledgerOf (twoRequests.run [0, 0, 0, 0, 1, 1, 1, 1]).store 1 = [⟨7, .paid, none⟩] := by
  decide

end EventSyns
